import Mathlib

/-!
Formal model of the LLM-mediated analysis pipeline of the CTA Evaluation
System (modules/llm_interface.py, modules/risk_analyzer.py,
modules/cognate_aligner.py, modules/pce_analyzer.py,
modules/transliterator.py).

The Python code is shallowly embedded: Python values that can appear in a
parsed JSON response (and in the result dictionaries the modules build) are
modelled by the inductive type `PyVal`; Python floats are modelled by exact
rationals (IEEE rounding is not modelled; every claim checked here only
involves values and comparisons that are exact in both models); Python
exceptions are modelled by `Except PyErr`; functions that call the external
generation service take the client as an explicit function argument.
-/

namespace CTA

/-- Characters treated as whitespace by Python `str.strip` (the ASCII
whitespace characters; Python additionally strips rare Unicode space
characters, which never occur in the texts considered here). -/
def isPySpace (c : Char) : Bool :=
  c = ' ' || c = '\t' || c = '\n' || c = '\r' || c = '\x0b' || c = '\x0c'

def pyStripList (cs : List Char) : List Char :=
  ((cs.dropWhile isPySpace).reverse.dropWhile isPySpace).reverse

/-- Python `str.strip()`. -/
def pyStrip (s : String) : String := String.mk (pyStripList s.toList)

/-- Python `sub in s` (substring containment) on character lists. -/
def containsSubL (pat : List Char) : List Char → Bool
  | [] => pat.isPrefixOf []
  | c :: t => pat.isPrefixOf (c :: t) || containsSubL pat t

/-- Python `sub in s`. -/
def pyContains (s sub : String) : Bool := containsSubL sub.toList s.toList

/-- Python `s.startswith(p)`. -/
def pyStartsWith (s p : String) : Bool := p.toList.isPrefixOf s.toList

/-- Python `s.endswith(p)`. -/
def pyEndsWith (s p : String) : Bool := p.toList.isSuffixOf s.toList

/-- Python `s.count(c)` for a single-character needle. -/
def countChar (s : String) (c : Char) : Nat :=
  (s.toList.filter (fun x => x = c)).length

/-- Python `s.split(sep)` on character lists, for a non-empty separator
`s0 :: srest`: splits at each non-overlapping occurrence, left to right. -/
def splitSubL (s0 : Char) (srest : List Char) : List Char → List (List Char)
  | [] => [[]]
  | c :: t =>
    if (s0 :: srest).isPrefixOf (c :: t) then
      [] :: splitSubL s0 srest (t.drop srest.length)
    else
      match splitSubL s0 srest t with
      | [] => [[c]]
      | p :: ps => (c :: p) :: ps
  termination_by cs => cs.length
  decreasing_by
    · simp [List.length_drop]; omega
    · simp

/-- Python `s.split(sep)` for a non-empty separator. -/
def pySplit (s sep : String) : List String :=
  match sep.toList with
  | [] => [s]
  | s0 :: srest => (splitSubL s0 srest s.toList).map String.mk

/-- Python non-overlapping `s.count(sub)`; an empty needle counts
`len(s) + 1` occurrences, as in Python. -/
def pyCountSubL (pat : List Char) (cs : List Char) (fuel : Nat) : Nat :=
  match fuel with
  | 0 => 0
  | fuel + 1 =>
    match cs with
    | [] => if pat.isPrefixOf [] then 1 else 0
    | c :: t =>
      if pat.isPrefixOf (c :: t) then
        match pat with
        | [] => 1 + pyCountSubL pat t fuel
        | _ :: prest => 1 + pyCountSubL pat (t.drop prest.length) fuel
      else pyCountSubL pat t fuel

def pyCountSub (s sub : String) : Nat :=
  pyCountSubL sub.toList s.toList (s.toList.length + 1)

/-- Python `s.replace(old, new)`: replaces every non-overlapping occurrence,
left to right (only called with non-empty `old` in the modelled code). -/
def pyReplaceL (old new : List Char) (cs : List Char) (fuel : Nat) : List Char :=
  match fuel with
  | 0 => cs
  | fuel + 1 =>
    match cs with
    | [] => []
    | c :: t =>
      if old.isPrefixOf (c :: t) ∧ old ≠ [] then
        new ++ pyReplaceL old new ((c :: t).drop old.length) fuel
      else c :: pyReplaceL old new t fuel

def pyReplace (s old new : String) : String :=
  String.mk (pyReplaceL old.toList new.toList s.toList (s.toList.length + 1))

/-- Python `sep.join(parts)`. -/
def pyJoin (sep : String) : List String → String
  | [] => ""
  | [x] => x
  | x :: rest => x ++ sep ++ pyJoin sep rest

/-- Left brace character, `Char.ofNat 123`. -/
def lbrace : Char := '\x7b'

/-- Right brace character, `Char.ofNat 125`. -/
def rbrace : Char := '\x7d'

/-- Python values as they occur in the modelled modules: `None`, booleans,
numbers (ints and floats are both modelled as exact rationals), strings,
lists, dicts with string keys, tuples and sets. -/
inductive PyVal where
  | pnone : PyVal
  | pbool : Bool → PyVal
  | pnum : ℚ → PyVal
  | pstr : String → PyVal
  | plist : List PyVal → PyVal
  | pdict : List (String × PyVal) → PyVal
  | ptup : List PyVal → PyVal
  | pset : List PyVal → PyVal

/-- Python exceptions that the modelled code can raise; the carried strings
model the exception messages (whose exact text no checked property depends
on). -/
inductive PyErr where
  | typeErr : String → PyErr
  | attrErr : String → PyErr
  | keyErr : String → PyErr
  | valueErr : String → PyErr
  deriving DecidableEq

/-- Python dict lookup `d[k]` / `d.get(k)` on an association list (dicts
built by the modelled code never carry duplicate keys). -/
def kvGet (kvs : List (String × PyVal)) (k : String) : Option PyVal :=
  match kvs with
  | [] => none
  | (k2, v) :: rest => if k2 = k then some v else kvGet rest k

/-- Python `d.get(k, default)`. -/
def kvGetD (kvs : List (String × PyVal)) (k : String) (d : PyVal) : PyVal :=
  (kvGet kvs k).getD d

/-- Python `k in d`. -/
def kvHas (kvs : List (String × PyVal)) (k : String) : Bool :=
  (kvGet kvs k).isSome

/-- Python dict assignment `d[k] = v`: updates an existing key in place
(keeping its position) or appends a new key at the end. -/
def kvSet (kvs : List (String × PyVal)) (k : String) (v : PyVal) : List (String × PyVal) :=
  match kvs with
  | [] => [(k, v)]
  | (k2, v2) :: rest => if k2 = k then (k, v) :: rest else (k2, v2) :: kvSet rest k v

/-- Python truthiness (`bool(v)`). -/
def pyTruthy : PyVal → Bool
  | .pnone => false
  | .pbool b => b
  | .pnum q => q ≠ 0
  | .pstr s => s ≠ ""
  | .plist xs => !xs.isEmpty
  | .pdict kvs => !kvs.isEmpty
  | .ptup xs => !xs.isEmpty
  | .pset xs => !xs.isEmpty

mutual
/-- Python `==` on the modelled values (booleans compare equal to the
numbers 0/1, as in Python; dict comparison is by key lookup). -/
def pyEqV : PyVal → PyVal → Bool
  | .pnone, .pnone => true
  | .pbool a, .pbool b => a = b
  | .pbool a, .pnum q => (if a then (1 : ℚ) else 0) = q
  | .pnum q, .pbool a => q = (if a then (1 : ℚ) else 0)
  | .pnum a, .pnum b => a = b
  | .pstr a, .pstr b => a = b
  | .plist a, .plist b => pyEqL a b
  | .ptup a, .ptup b => pyEqL a b
  | .pset a, .pset b => pyEqSub a b && pyEqSub b a
  | .pdict a, .pdict b => a.length = b.length && pyEqKVs a b
  | _, _ => false
  termination_by a b => sizeOf a + sizeOf b
  decreasing_by all_goals (simp_wf; try omega)

def pyEqL : List PyVal → List PyVal → Bool
  | [], [] => true
  | a :: as', b :: bs => pyEqV a b && pyEqL as' bs
  | _, _ => false
  termination_by a b => sizeOf a + sizeOf b
  decreasing_by all_goals (simp_wf; try omega)

def pyEqSub : List PyVal → List PyVal → Bool
  | [], _ => true
  | a :: as', bs => pyEqMem a bs && pyEqSub as' bs
  termination_by a b => sizeOf a + sizeOf b
  decreasing_by all_goals (simp_wf; try omega)

def pyEqMem : PyVal → List PyVal → Bool
  | _, [] => false
  | a, b :: bs => pyEqV a b || pyEqMem a bs
  termination_by a b => sizeOf a + sizeOf b
  decreasing_by all_goals (simp_wf; try omega)

def pyEqKVs : List (String × PyVal) → List (String × PyVal) → Bool
  | [], _ => true
  | (k, v) :: rest, bs => pyEqFind k v bs && pyEqKVs rest bs
  termination_by a b => sizeOf a + sizeOf b
  decreasing_by all_goals (simp_wf; try omega)

def pyEqFind : String → PyVal → List (String × PyVal) → Bool
  | _, _, [] => false
  | k, v, (k2, v2) :: rest => if k2 = k then pyEqV v v2 else pyEqFind k v rest
  termination_by _ v b => sizeOf v + sizeOf b
  decreasing_by all_goals (simp_wf; try omega)
end

/-- Membership of a value in a set modelled as a list (Python set
membership, using Python equality). -/
def pySetMem (v : PyVal) (xs : List PyVal) : Bool := pyEqMem v xs

/-- Python `set.add`: keeps insertion order of first occurrences (Python
set iteration order is unspecified; no checked property depends on the
order of set elements). -/
def pySetAdd (xs : List PyVal) (v : PyVal) : List PyVal :=
  if pySetMem v xs then xs else xs ++ [v]

/-- Python float values: finite values are exact rationals; the infinities
and NaN are separate constructors so that `min`/`max` clamping behaves as
in Python. -/
inductive PyF where
  | fin : ℚ → PyF
  | pinf : PyF
  | pninf : PyF
  | pnan : PyF
  deriving DecidableEq

section PyFloatOfString

/-- Worker for `parseUDigits`: consumes digits with single underscores
between digits; the final flag is false when an underscore is misplaced. -/
def parseUDigitsGo (acc len : Nat) : List Char → Nat × Nat × List Char × Bool
  | [] => (acc, len, [], true)
  | d :: rest =>
    if d.isDigit then parseUDigitsGo (acc * 10 + (d.toNat - 48)) (len + 1) rest
    else if d = '_' then
      match rest with
      | d2 :: rest2 =>
        if d2.isDigit then parseUDigitsGo (acc * 10 + (d2.toNat - 48)) (len + 1) rest2
        else (acc, len, d :: rest, false)
      | [] => (acc, len, [d], false)
    else (acc, len, d :: rest, true)

/-- Digit sequence with Python numeric-literal underscores: one or more
digits, with single underscores allowed only between digits. Returns the
value, the number of digits, and the rest of the input. -/
def parseUDigits : List Char → Option (Nat × Nat × List Char)
  | c :: t =>
    if c.isDigit then
      match parseUDigitsGo (c.toNat - 48) 1 t with
      | (acc, len, rest, true) => some (acc, len, rest)
      | (_, _, _, false) => none
    else none
  | [] => none

/-- Case-insensitive match of an ASCII keyword against a whole character
list. -/
def matchesKeyword (kw : String) (cs : List Char) : Bool :=
  cs.map (fun c => c.toLower) = kw.toList

/-- Python `float(s)` after whitespace stripping and sign handling: either
an `inf`/`infinity`/`nan` keyword or a decimal literal
`digits [. digits] [e [sign] digits]` (with at least one mantissa digit).
Overflow to infinity and IEEE rounding are not modelled: finite results are
exact rationals, which agrees with Python on every comparison made by the
modelled code for the inputs considered. -/
def pyFloatBody (cs : List Char) : Option PyF :=
  if matchesKeyword ("inf") cs || matchesKeyword ("infinity") cs then some .pinf
  else if matchesKeyword ("nan") cs then some .pnan
  else
    let (ipart, ilen, rest) :=
      match parseUDigits cs with
      | some (v, l, r) => (v, l, r)
      | none => (0, 0, cs)
    let (fpart, flen, rest2) :=
      match rest with
      | '.' :: t =>
        match parseUDigits t with
        | some (v, l, r) => (v, l, r)
        | none => (0, 0, t)
      | _ => (0, 0, rest)
    if ilen + flen = 0 then none
    else
      let mant : ℚ := (ipart : ℚ) + (fpart : ℚ) / ((10 : ℚ) ^ flen)
      match rest2 with
      | [] => some (.fin mant)
      | e :: t =>
        if e = 'e' ∨ e = 'E' then
          let (esign, t2) :=
            match t with
            | '+' :: t2 => ((1 : Int), t2)
            | '-' :: t2 => ((-1 : Int), t2)
            | _ => ((1 : Int), t)
          match parseUDigits t2 with
          | some (ev, _, []) =>
            if esign ≥ 0 then some (.fin (mant * (10 : ℚ) ^ ev))
            else some (.fin (mant / (10 : ℚ) ^ ev))
          | _ => none
        else none

/-- Python `float(s)` on a string: strips whitespace, handles an optional
sign, then parses the body. Returns `none` where Python raises
`ValueError`. -/
def pyFloatOfString (s : String) : Option PyF :=
  match pyStripList s.toList with
  | '+' :: t => pyFloatBody t
  | '-' :: t =>
    match pyFloatBody t with
    | some (.fin q) => some (.fin (-q))
    | some .pinf => some .pninf
    | some .pninf => some .pinf
    | some .pnan => some .pnan
    | none => none
  | t => pyFloatBody t

end PyFloatOfString

/-- Python `float(v)` on an arbitrary value: numbers and booleans convert,
strings are parsed, everything else raises (`TypeError`), which the
modelled callers treat the same as a parse failure. -/
def pyFloatOfVal : PyVal → Option PyF
  | .pnum q => some (.fin q)
  | .pbool b => some (.fin (if b then 1 else 0))
  | .pstr s => pyFloatOfString s
  | _ => none

/-- Python `max(0.0, min(1.0, c))` with Python's `min`/`max` semantics
(`min(a, b)` is `b` if `b < a` else `a`; comparisons with NaN are false,
so NaN clamps to `1.0`). The result is always finite and in `[0, 1]`. -/
def pyClamp01 : PyF → ℚ
  | .fin q => if q < 1 then (if q > 0 then q else 0) else 1
  | .pinf => 1
  | .pninf => 0
  | .pnan => 1

/-! JSON parsing (Python `json.loads`, default strict mode). Objects and
arrays, strings with the JSON escapes (strict: unescaped control characters
are rejected), numbers per the JSON grammar (modelled as exact rationals;
Python's int/float distinction and its non-standard `NaN`/`Infinity`
constants are not modelled), `true`/`false`/`null`. Duplicate object keys
keep the first position and the last value, as Python's `dict` does. The
error strings model `json.JSONDecodeError` messages. -/

/-- JSON whitespace skipping (space, tab, newline, carriage return). -/
def jsonWs (cs : List Char) : List Char :=
  cs.dropWhile (fun c => c = ' ' || c = '\t' || c = '\n' || c = '\r')

def hexDigitVal (c : Char) : Option Nat :=
  if c.isDigit then some (c.toNat - 48)
  else if 'a' ≤ c ∧ c ≤ 'f' then some (c.toNat - 87)
  else if 'A' ≤ c ∧ c ≤ 'F' then some (c.toNat - 55)
  else none

/-- JSON string body parser (after the opening quote). Surrogate pairs in
`\uXXXX` escapes are combined; a lone surrogate is rejected (Python would
produce a lone-surrogate character, which has no counterpart here and never
occurs in the modelled data). -/
def jParseStr (fuel : Nat) (cs : List Char) (acc : List Char) : Except String (String × List Char) :=
  match fuel with
  | 0 => .error ("string fuel exhausted")
  | fuel + 1 =>
    match cs with
    | [] => .error ("Unterminated string")
    | '"' :: rest => .ok (String.mk acc.reverse, rest)
    | '\\' :: rest =>
      match rest with
      | [] => .error ("Unterminated string")
      | e :: rest2 =>
        if e = '"' then jParseStr fuel rest2 ('"' :: acc)
        else if e = '\\' then jParseStr fuel rest2 ('\\' :: acc)
        else if e = '/' then jParseStr fuel rest2 ('/' :: acc)
        else if e = 'b' then jParseStr fuel rest2 ('\x08' :: acc)
        else if e = 'f' then jParseStr fuel rest2 ('\x0c' :: acc)
        else if e = 'n' then jParseStr fuel rest2 ('\n' :: acc)
        else if e = 'r' then jParseStr fuel rest2 ('\r' :: acc)
        else if e = 't' then jParseStr fuel rest2 ('\t' :: acc)
        else if e = 'u' then
          match rest2 with
          | h1 :: h2 :: h3 :: h4 :: rest3 =>
            match hexDigitVal h1, hexDigitVal h2, hexDigitVal h3, hexDigitVal h4 with
            | some a, some b, some c, some d =>
              let code := ((a * 16 + b) * 16 + c) * 16 + d
              if 0xD800 ≤ code ∧ code ≤ 0xDBFF then
                match rest3 with
                | '\\' :: 'u' :: g1 :: g2 :: g3 :: g4 :: rest4 =>
                  match hexDigitVal g1, hexDigitVal g2, hexDigitVal g3, hexDigitVal g4 with
                  | some a2, some b2, some c2, some d2 =>
                    let low := ((a2 * 16 + b2) * 16 + c2) * 16 + d2
                    if 0xDC00 ≤ low ∧ low ≤ 0xDFFF then
                      jParseStr fuel rest4
                        (Char.ofNat (0x10000 + (code - 0xD800) * 0x400 + (low - 0xDC00)) :: acc)
                    else .error ("Unpaired high surrogate")
                  | _, _, _, _ => .error ("Invalid \\uXXXX escape")
                | _ => .error ("Unpaired high surrogate")
              else if 0xDC00 ≤ code ∧ code ≤ 0xDFFF then .error ("Unpaired low surrogate")
              else jParseStr fuel rest3 (Char.ofNat code :: acc)
            | _, _, _, _ => .error ("Invalid \\uXXXX escape")
          | _ => .error ("Invalid \\uXXXX escape")
        else .error ("Invalid \\escape")
    | c :: rest =>
      if c.toNat < 0x20 then .error ("Invalid control character")
      else jParseStr fuel rest (c :: acc)

def digitsVal (ds : List Char) : Nat :=
  ds.foldl (fun a c => a * 10 + (c.toNat - 48)) 0

/-- JSON number parser, following the regular expression used by Python's
`json` module: `-? (0 | [1-9][0-9]*) (\.[0-9]+)? ([eE][-+]?[0-9]+)?`, read
greedily; trailing characters that do not extend the number are left in
the input. -/
def jParseNum (cs : List Char) : Except String (PyVal × List Char) :=
  let (neg, cs1) :=
    match cs with
    | '-' :: t => (true, t)
    | _ => (false, cs)
  match cs1 with
  | c :: t =>
    if ¬ c.isDigit then .error ("Expecting value")
    else
      let (ipart, rest) :=
        if c = '0' then (0, t)
        else (digitsVal (c :: t.takeWhile Char.isDigit), t.dropWhile Char.isDigit)
      let (fpart, flen, rest2) :=
        match rest with
        | '.' :: t2 =>
          let ds := t2.takeWhile Char.isDigit
          if ds.isEmpty then ((0 : Nat), (0 : Nat), rest)
          else (digitsVal ds, ds.length, t2.dropWhile Char.isDigit)
        | _ => (0, 0, rest)
      let mant : ℚ := (ipart : ℚ) + (fpart : ℚ) / ((10 : ℚ) ^ flen)
      let mant : ℚ := if neg then -mant else mant
      let (value, rest3) :=
        match rest2 with
        | e :: t2 =>
          if e = 'e' ∨ e = 'E' then
            let (eneg, t3) :=
              match t2 with
              | '+' :: t3 => (false, t3)
              | '-' :: t3 => (true, t3)
              | _ => (false, t2)
            let ds := t3.takeWhile Char.isDigit
            if ds.isEmpty then (mant, rest2)
            else
              let ev := digitsVal ds
              (if eneg then mant / ((10 : ℚ) ^ ev) else mant * ((10 : ℚ) ^ ev),
               t3.dropWhile Char.isDigit)
          else (mant, rest2)
        | [] => (mant, rest2)
      .ok (.pnum value, rest3)
  | [] => .error ("Expecting value")

mutual
/-- JSON value parser; `fuel` bounds the recursion depth and is chosen large
enough by `pyJsonLoads` that it is never exhausted on any input. -/
def jParse (fuel : Nat) (cs : List Char) : Except String (PyVal × List Char) :=
  match fuel with
  | 0 => .error ("parser fuel exhausted")
  | fuel + 1 =>
    match cs with
    | [] => .error ("Expecting value")
    | c :: rest =>
      if c = 'n' then
        match rest with
        | 'u' :: 'l' :: 'l' :: r => .ok (.pnone, r)
        | _ => .error ("Expecting value")
      else if c = 't' then
        match rest with
        | 'r' :: 'u' :: 'e' :: r => .ok (.pbool true, r)
        | _ => .error ("Expecting value")
      else if c = 'f' then
        match rest with
        | 'a' :: 'l' :: 's' :: 'e' :: r => .ok (.pbool false, r)
        | _ => .error ("Expecting value")
      else if c = '"' then
        match jParseStr (rest.length + 1) rest [] with
        | .ok (s, r) => .ok (.pstr s, r)
        | .error m => .error m
      else if c = '[' then
        let r := jsonWs rest
        match r with
        | ']' :: r2 => .ok (.plist [], r2)
        | _ => jParseArrLoop fuel r []
      else if c = lbrace then
        let r := jsonWs rest
        if r.head? = some rbrace then .ok (.pdict [], r.drop 1)
        else jParseObjLoop fuel r []
      else if c = '-' ∨ c.isDigit then jParseNum cs
      else .error ("Expecting value")

/-- Array elements after the opening bracket (first element not yet
parsed, leading whitespace skipped). -/
def jParseArrLoop (fuel : Nat) (cs : List Char) (acc : List PyVal) : Except String (PyVal × List Char) :=
  match fuel with
  | 0 => .error ("parser fuel exhausted")
  | fuel + 1 =>
    match jParse fuel cs with
    | .error m => .error m
    | .ok (v, r) =>
      match jsonWs r with
      | ',' :: r2 => jParseArrLoop fuel (jsonWs r2) (acc ++ [v])
      | ']' :: r2 => .ok (.plist (acc ++ [v]), r2)
      | _ => .error ("Expecting delimiter")

/-- Object members after the opening brace (first key not yet parsed,
leading whitespace skipped). -/
def jParseObjLoop (fuel : Nat) (cs : List Char) (acc : List (String × PyVal)) : Except String (PyVal × List Char) :=
  match fuel with
  | 0 => .error ("parser fuel exhausted")
  | fuel + 1 =>
    match cs with
    | '"' :: r =>
      match jParseStr (r.length + 1) r [] with
      | .error m => .error m
      | .ok (k, r2) =>
        match jsonWs r2 with
        | ':' :: r3 =>
          match jParse fuel (jsonWs r3) with
          | .error m => .error m
          | .ok (v, r4) =>
            let acc := kvSet acc k v
            match jsonWs r4 with
            | ',' :: r5 => jParseObjLoop fuel (jsonWs r5) acc
            | c :: r5 =>
              if c = rbrace then .ok (.pdict acc, r5)
              else .error ("Expecting delimiter")
            | [] => .error ("Expecting delimiter")
        | _ => .error ("Expecting colon delimiter")
    | _ => .error ("Expecting property name enclosed in double quotes")
end

/-- Python `json.loads`: parse one JSON document and require that only
whitespace follows it. -/
def pyJsonLoads (s : String) : Except String PyVal :=
  let cs := jsonWs s.toList
  match jParse (2 * cs.length + 8) cs with
  | .error m => .error m
  | .ok (v, rest) => if jsonWs rest = [] then .ok v else .error ("Extra data")

/-! Backtracking matcher for the four regular expressions used by
`parse_json_response` (all with `re.DOTALL`, so `.` matches newlines).
Matching follows Python `re` preference order: lazy stars try the shortest
extension first, greedy stars the longest; `re.search` returns the match at
the leftmost possible start position. -/

inductive RPat where
  | eps : RPat
  | lit : Char → RPat
  | anyc : RPat
  | wsc : RPat
  | notBrace : RPat
  | cat : RPat → RPat → RPat
  | starG : RPat → RPat
  | starL : RPat → RPat

/-- Python regex `\s` on strings (ASCII part; the Unicode space characters
it also matches never occur in the inputs considered). -/
def isRegexSpace (c : Char) : Bool :=
  c = ' ' || c = '\t' || c = '\n' || c = '\r' || c = '\x0b' || c = '\x0c'

/-- Continuation-passing backtracking matcher. `fuel` bounds the recursion
depth; `reSearchL` supplies enough fuel for every input considered (star
bodies in the patterns used always consume at least one character, which
the progress check enforces). -/
def matchR (fuel : Nat) (p : RPat) (s : List Char) (k : List Char → Option (List Char)) : Option (List Char) :=
  match fuel with
  | 0 => none
  | fuel + 1 =>
    match p with
    | .eps => k s
    | .lit c =>
      match s with
      | c2 :: rest => if c2 = c then k rest else none
      | [] => none
    | .anyc =>
      match s with
      | _ :: rest => k rest
      | [] => none
    | .wsc =>
      match s with
      | c2 :: rest => if isRegexSpace c2 then k rest else none
      | [] => none
    | .notBrace =>
      match s with
      | c2 :: rest => if c2 ≠ lbrace ∧ c2 ≠ rbrace then k rest else none
      | [] => none
    | .cat p q => matchR fuel p s (fun r => matchR fuel q r k)
    | .starG p =>
      match matchR fuel p s (fun r => if r.length < s.length then matchR fuel (.starG p) r k else none) with
      | some res => some res
      | none => k s
    | .starL p =>
      match k s with
      | some res => some res
      | none => matchR fuel p s (fun r => if r.length < s.length then matchR fuel (.starL p) r k else none)

/-- Leftmost search: try a match at each start position, left to right,
and return the matched text. -/
def reSearchL (p : RPat) (cs : List Char) : Option (List Char) :=
  match matchR ((cs.length + 2) * 64) p cs (fun rest => some rest) with
  | some rest => some (cs.take (cs.length - rest.length))
  | none =>
    match cs with
    | [] => none
    | _ :: t => reSearchL p t

/-- Python `re.search(pattern, s, re.DOTALL)`, returning `match.group()`. -/
def reSearch (p : RPat) (s : String) : Option String :=
  (reSearchL p s.toList).map String.mk

/-- Pattern `\[.*?\]`. -/
def patArrSpan : RPat := .cat (.lit '[') (.cat (.starL .anyc) (.lit ']'))

/-- Pattern `\{.*?\}`. -/
def patObjSpan : RPat := .cat (.lit lbrace) (.cat (.starL .anyc) (.lit rbrace))

/-- Pattern `\{[^{}]*(?:\{[^{}]*\}[^{}]*)*\}` (object with one level of
nested objects), used by the exception handler of `parse_json_response`. -/
def patObjNested : RPat :=
  .cat (.lit lbrace)
    (.cat (.starG .notBrace)
      (.cat (.starG (.cat (.lit lbrace)
                      (.cat (.starG .notBrace)
                        (.cat (.lit rbrace) (.starG .notBrace)))))
        (.lit rbrace)))

/-- Sub-pattern `\{.*?\}\s*` of the handler's array pattern. -/
def patObjPiece : RPat :=
  .cat (.lit lbrace) (.cat (.starL .anyc) (.cat (.lit rbrace) (.starG .wsc)))

/-- Pattern `\[\s*\{.*?\}\s*(?:,\s*\{.*?\}\s*)*\]` (array of objects), used
by the exception handler of `parse_json_response`. -/
def patArrOfObjs : RPat :=
  .cat (.lit '[')
    (.cat (.starG .wsc)
      (.cat patObjPiece
        (.cat (.starG (.cat (.lit ',') (.cat (.starG .wsc) patObjPiece)))
          (.lit ']'))))

/-! `LLMInterface.parse_json_response` (llm_interface.py, lines 90-186). -/

/-- Code-fence and prefix stripping (llm_interface.py lines 105-114): keep
the interior of a ```json fence, or of a leading ``` fence, or remove every
`OUTPUT:` (respectively `OUTPUT_TEXT:`) occurrence and strip. Exactly one
branch applies (Python if/elif chain). -/
def stripWrappers (content : String) : String :=
  if pyContains content ("```json") then
    (((pySplit content ("```json")).getD 1 ("")).splitOn ("```")).getD 0 ("")
  else if pyStartsWith content ("```") then
    (((pySplit content ("```")).getD 1 ("")).splitOn ("```")).getD 0 ("")
  else if pyContains content ("OUTPUT:") then
    pyStrip (pyReplace content ("OUTPUT:") (""))
  else if pyContains content ("OUTPUT_TEXT:") then
    pyStrip (pyReplace content ("OUTPUT_TEXT:") (""))
  else content

/-- The per-line condition under which the line scan stops on a line it has
appended (llm_interface.py line 128): the line ends with a closing brace
and its own opening-brace count does not exceed its own closing-brace
count. -/
def lineStopCond (l : String) : Bool :=
  pyEndsWith l ("\x7d") && countChar l lbrace ≤ countChar l rbrace

/-- Loop of the line scan (llm_interface.py lines 117-129): each line is
stripped; scanning starts at the first line beginning with a left brace;
from then on every stripped line is appended, and the loop breaks after
appending a line satisfying `lineStopCond`. -/
def lineScanGo (ls : List String) (started : Bool) (acc : List String) : List String :=
  match ls with
  | [] => acc
  | line :: rest =>
    let l := pyStrip line
    let started := started || pyStartsWith l ("\x7b")
    if started then
      let acc := acc ++ [l]
      if lineStopCond l then acc else lineScanGo rest started acc
    else lineScanGo rest started acc

/-- The `json_lines` buffer produced by the line scan of
`parse_json_response` for the given content. -/
def lineScan (content : String) : List String :=
  lineScanGo (pySplit content ("\n")) false []

/-- Modelled from the spec: the line scan as §4.3 step 3 describes it,
stopping at a line ending with a right brace at a point where the
cumulative count of left braces over the accumulated buffer is at most the
cumulative count of right braces. Used only to compare the specified scan
against the implemented one. -/
def lineScanSpecCum (content : String) : List String :=
  go ((pySplit content ("\n")).map pyStrip) false []
where
  go : List String → Bool → List String → List String
  | [], _, acc => acc
  | l :: rest, started, acc =>
    let started := started || pyStartsWith l ("\x7b")
    if started then
      let acc := acc ++ [l]
      if pyEndsWith l ("\x7d") &&
         (acc.map (fun x => countChar x lbrace)).sum ≤ (acc.map (fun x => countChar x rbrace)).sum
      then acc
      else go rest started acc
    else go rest started acc

/-- Restatement of the implemented line scan as a slice of the stripped
line list: everything from the first line beginning with a left brace up to
and including the first subsequent line satisfying `lineStopCond` (or to
the end if no such line exists); empty when no line begins with a left
brace. -/
def lineScanSlice (content : String) : List String :=
  let ls := (pySplit content ("\n")).map pyStrip
  match ls.findIdx? (fun l => pyStartsWith l ("\x7b")) with
  | none => []
  | some i =>
    let tail := ls.drop i
    match tail.findIdx? lineStopCond with
    | none => tail
    | some j => tail.take (j + 1)

/-- Failure payload of `parse_json_response`: the final
`ValueError(f"JSON parse hatası: {e}\nİçerik: {response_content}")` carries
the decode-error message and the original raw response text. -/
structure JsonFailure where
  decodeMsg : String
  raw : String

/-- The `try` block of `parse_json_response` (llm_interface.py lines
100-160): wrapper stripping, line scan, the direct array/object parses,
the non-greedy span parses, and the final direct parse. A `.error` carries
the message of the `json.JSONDecodeError` that escapes the block. The two
consecutive `content.strip()` calls of the source (lines 135 and 138) are
modelled by one strip. -/
def parseMainFlow (raw : String) : Except String PyVal :=
  let content := pyStrip raw
  let content := stripWrappers content
  let jl := lineScan content
  let content := if !jl.isEmpty then pyJoin ("\n") jl else content
  let content := pyStrip content
  if pyStartsWith content ("[") && pyEndsWith content ("]") then
    pyJsonLoads content
  else if pyStartsWith content ("\x7b") && pyEndsWith content ("\x7d") then
    pyJsonLoads content
  else
    match reSearch patArrSpan content with
    | some m => pyJsonLoads m
    | none =>
      match reSearch patObjSpan content with
      | some m => pyJsonLoads m
      | none => pyJsonLoads content

/-- One attempt of the `except json.JSONDecodeError` handler
(llm_interface.py lines 166-184): search the original content with the
given pattern and try to parse the stripped match, swallowing any failure
(`except: pass`). -/
def handlerTry (raw : String) (pat : RPat) : Option PyVal :=
  match reSearch pat raw with
  | some m =>
    match pyJsonLoads (pyStrip m) with
    | .ok v => some v
    | .error _ => none
  | none => none

/-- `LLMInterface.parse_json_response` (llm_interface.py lines 90-186):
layered extraction of a JSON document from a raw response; on failure of
the main flow, the regex handler tries an array-of-objects pattern and then
a nested-object pattern against the original text; if those fail too, the
function raises `ValueError` carrying the decode message and the raw
text. -/
def parseJsonResponse (raw : String) : Except JsonFailure PyVal :=
  match parseMainFlow raw with
  | .ok v => .ok v
  | .error msg =>
    match handlerTry raw patArrOfObjs with
    | some v => .ok v
    | none =>
      match handlerTry raw patObjNested with
      | some v => .ok v
      | none => .error ⟨msg, raw⟩

/-- Message of the modelled `ValueError` raised by `parse_json_response`,
as seen by callers that format the exception (`str(e)`). -/
def jsonFailureStr (f : JsonFailure) : String :=
  "JSON parse hatası: " ++ f.decodeMsg ++ "\nİçerik: " ++ f.raw

/-- Whether a string contains, as a contiguous substring, a syntactically
valid JSON object or array (the notion of "contains a valid structured
document" used by the specification's extraction properties). -/
def hasStructuredDoc (s : String) : Bool :=
  let cs := s.toList
  let n := cs.length
  (List.range (n + 1)).any (fun i =>
    (List.range (n + 1)).any (fun len =>
      match pyJsonLoads (String.mk ((cs.drop i).take len)) with
      | .ok (.pdict _) => true
      | .ok (.plist _) => true
      | _ => false))

/-! Shared helpers for the analysis modules. -/

/-- Python `str.lower`, character by character, covering ASCII and the
special letters of the target alphabet (Python lowers `İ` to a
two-character string, which a character map cannot express; no checked
property depends on that letter). -/
def charLowerPy (c : Char) : Char :=
  if 'A' ≤ c ∧ c ≤ 'Z' then Char.ofNat (c.toNat + 32)
  else match c with
  | 'Ç' => 'ç' | 'Ğ' => 'ğ' | 'İ' => 'i' | 'Ñ' => 'ñ' | 'Ò' => 'ò' | 'Ö' => 'ö'
  | 'Ş' => 'ş' | 'Ü' => 'ü' | 'Ä' => 'ä' | 'Û' => 'û' | 'Ə' => 'ə' | 'Â' => 'â'
  | 'Î' => 'î' | 'Ô' => 'ô'
  | _ => c

/-- Python `str.upper`, character by character, for the same repertoire. -/
def charUpperPy (c : Char) : Char :=
  if 'a' ≤ c ∧ c ≤ 'z' then Char.ofNat (c.toNat - 32)
  else match c with
  | 'ç' => 'Ç' | 'ğ' => 'Ğ' | 'ı' => 'I' | 'ñ' => 'Ñ' | 'ò' => 'Ò' | 'ö' => 'Ö'
  | 'ş' => 'Ş' | 'ü' => 'Ü' | 'ä' => 'Ä' | 'û' => 'Û' | 'ə' => 'Ə' | 'â' => 'Â'
  | 'î' => 'Î' | 'ô' => 'Ô'
  | _ => c

def pyLower (s : String) : String := String.mk (s.toList.map charLowerPy)

def pyUpper (s : String) : String := String.mk (s.toList.map charUpperPy)

/-- Python `str(v)`, approximately: exact for `None`, booleans, strings and
integers; non-integer numbers and containers are rendered structurally
rather than with Python's float `repr` (no checked property inspects these
renderings). -/
def pyStrOf (fuel : Nat) (v : PyVal) : String :=
  match fuel with
  | 0 => "..."
  | fuel + 1 =>
    match v with
    | .pnone => "None"
    | .pbool true => "True"
    | .pbool false => "False"
    | .pnum q => if q.den = 1 then toString q.num else toString q
    | .pstr s => s
    | .plist xs => "[" ++ pyJoin (", ") (xs.map (pyStrOf fuel)) ++ "]"
    | .pdict kvs =>
      "\x7b" ++ pyJoin (", ")
        (kvs.map (fun kv => kv.1 ++ ": " ++ pyStrOf fuel kv.2)) ++ "\x7d"
    | .ptup xs => "(" ++ pyJoin (", ") (xs.map (pyStrOf fuel)) ++ ")"
    | .pset xs => "\x7b" ++ pyJoin (", ") (xs.map (pyStrOf fuel)) ++ "\x7d"

/-- Message text of a modelled exception (`str(e)`); the modelled messages
are representative, and no checked property depends on their exact text. -/
def pyErrStr : PyErr → String
  | .typeErr m => m
  | .attrErr m => m
  | .keyErr m => m
  | .valueErr m => m

/-- A numeric operand for Python arithmetic or comparison: numbers are
themselves, booleans count as 0/1, everything else raises `TypeError`. -/
def toPyNumber : PyVal → Except PyErr ℚ
  | .pnum q => .ok q
  | .pbool b => .ok (if b then 1 else 0)
  | _ => .error (.typeErr ("unsupported operand type"))

/-- Whether a value is hashable (usable as a dict key or set element);
tuples are treated as hashable at one level, matching every value the
modelled code can actually produce. -/
def pyHashable : PyVal → Bool
  | .plist _ => false
  | .pdict _ => false
  | .pset _ => false
  | _ => true

/-- Python iteration over a value (`for x in v`): lists, tuples and sets
yield their elements, strings their characters, dicts their keys; the rest
raise `TypeError`. -/
def pyIterElems : PyVal → Except PyErr (List PyVal)
  | .plist xs => .ok xs
  | .ptup xs => .ok xs
  | .pset xs => .ok xs
  | .pstr s => .ok (s.toList.map (fun c => .pstr (String.mk [c])))
  | .pdict kvs => .ok (kvs.map (fun kv => .pstr kv.1))
  | _ => .error (.typeErr ("object is not iterable"))

/-- Python `len(v)`. -/
def pyLen : PyVal → Except PyErr Nat
  | .plist xs => .ok xs.length
  | .ptup xs => .ok xs.length
  | .pset xs => .ok xs.length
  | .pstr s => .ok s.length
  | .pdict kvs => .ok kvs.length
  | _ => .error (.typeErr ("object has no len"))

/-- The external generation client (`LLMInterface.call_llm`): system
prompt, user prompt, temperature and token budget in, on success the
response dict (with `content`, `model`, `usage`, `response_time` keys), on
failure a raised exception. Modelled as an explicit function argument of
each task entry point. -/
def LLMFun : Type := String → String → ℚ → Nat → Except PyErr PyVal

/-! `TransliteratorEngine` (transliterator.py). -/

/-- `LLMInterface.validate_ota_characters` (llm_interface.py lines
188-210): returns whether every character of the text belongs to the
allowed target-alphabet set, together with the distinct invalid characters
in first-occurrence order. -/
def validateOtaCharacters (text : String) : Bool × List Char :=
  let allowed :=
    ("abcçdefgğhıijklmnñoòöpqrsştuüvwxyzäûəâîô" ++
     "ABCÇDEFGĞHIİJKLMNÑOÒÖPQRSŞTUÜVWXYZÄÛƏÂÎÔ" ++
     " .,:;!?()-[]\x7b\x7d\"'0123456789\n\r\t").toList
  let invalid := text.toList.foldl
    (fun acc c => if ¬ allowed.contains c ∧ ¬ acc.contains c then acc ++ [c] else acc) []
  (invalid.isEmpty, invalid)

/-- The warning note appended when invalid characters are detected
(transliterator.py line 304). -/
def invalidCharsWarning (invalid : List Char) : String :=
  "Warning: Invalid characters detected: " ++
    pyJoin (", ") (invalid.map (fun c => String.mk [c]))

/-- `TransliteratorEngine._count_new_letters` (transliterator.py lines
331-341): occurrence counts of the new target-alphabet letters, keeping
only letters that occur. -/
def countNewLettersT (text : String) : PyVal :=
  let letters := ["x", "X", "ä", "Ä", "q", "Q", "ñ", "Ñ", "û", "Û", "ò", "Ò"]
  .pdict (letters.foldl
    (fun acc l =>
      let c := pyCountSub text l
      if c > 0 then acc ++ [(l, .pnum c)] else acc) [])

/-- The transliteration system prompt (transliterator.py lines 140-231).
The literal is a long fixed instruction text with no control flow; only a
faithful opening is reproduced here, which no checked property inspects. -/
def translitSystemPrompt : String :=
  "ROLE: You are a transliteration engine for the Common Turkic Alphabet (CTA)."

/-- The transliteration user prompt (transliterator.py lines 248-282): an
f-string interpolating the input text and source language; the fixed
instruction tail is abridged (no checked property inspects it). -/
def translitUserPrompt (input_text source_language : String) : String :=
  "INPUT_TEXT:\n" ++ input_text ++ "\n\nSOURCE_LANGUAGE: " ++ source_language ++
  "\n\nTASK:\nTransliterate from " ++ source_language ++ " to CTA following these rules:"

/-- Body of the `try` block of `TransliteratorEngine.transliterate`
(transliterator.py lines 284-321): call the client, parse the response,
and when the parsed result has truthy `ok` and `output_text`, run the
character check (appending a warning note on invalid characters) and
attach `statistics` and `llm_metadata`. A truthy non-string `output_text`
is modelled as `TypeError` (Python would iterate it inside
`validate_ota_characters` with no path back to a sound result; no claim
depends on that branch). -/
def transliterateCore (llm : LLMFun) (input_text source_language : String) : Except PyErr PyVal :=
  match llm translitSystemPrompt (translitUserPrompt input_text source_language) (1/10) 2000 with
  | .error e => .error e
  | .ok response =>
    match response with
    | .pdict rsp =>
      match kvGet rsp ("content") with
      | none => .error (.keyErr ("content"))
      | some contentV =>
        match contentV with
        | .pstr content =>
          match parseJsonResponse content with
          | .error f => .error (.valueErr (jsonFailureStr f))
          | .ok result =>
            match result with
            | .pdict rkv =>
              if pyTruthy (kvGetD rkv ("ok") .pnone) &&
                 pyTruthy (kvGetD rkv ("output_text") .pnone) then
                match kvGetD rkv ("output_text") .pnone with
                | .pstr out =>
                  let vres := validateOtaCharacters out
                  match (if vres.1 then Except.ok rkv else
                          match kvGetD rkv ("notes") (.plist []) with
                          | .plist ns =>
                            .ok (kvSet rkv ("notes")
                              (.plist (ns ++ [.pstr (invalidCharsWarning vres.2)])))
                          | _ => Except.error (PyErr.attrErr ("no attribute append"))) with
                  | .error e => .error e
                  | .ok rkv2 =>
                    let rkv3 := kvSet rkv2 ("statistics") (.pdict [
                      ("input_length", .pnum input_text.length),
                      ("output_length", .pnum out.length),
                      ("source_language", .pstr source_language),
                      ("new_letters_used", countNewLettersT out)])
                    let rkv4 := kvSet rkv3 ("llm_metadata") (.pdict [
                      ("model", kvGetD rsp ("model") .pnone),
                      ("usage", kvGetD rsp ("usage") .pnone),
                      ("response_time", kvGetD rsp ("response_time") .pnone)])
                    .ok (.pdict rkv4)
                | _ => .error (.typeErr ("output_text is not a string"))
              else .ok result
            | _ => .error (.attrErr ("no attribute get"))
        | _ => .error (.attrErr ("no attribute strip"))
    | _ => .error (.typeErr ("response is not a dict"))

/-- `TransliteratorEngine.transliterate` (transliterator.py lines 233-329):
rejects empty input before any client call; otherwise runs the pipeline
and converts any raised exception into the failure dict of the `except`
clause. -/
def transliterate (llm : LLMFun) (input_text source_language : String) : PyVal :=
  if pyStrip input_text = "" then
    .pdict [("ok", .pbool false), ("error", .pstr ("Empty text"))]
  else
    match transliterateCore llm input_text source_language with
    | .ok r => r
    | .error e =>
      .pdict [("ok", .pbool false),
        ("error", .pstr ("Transliteration error: " ++ pyErrStr e)),
        ("input_text", .pstr input_text),
        ("source_language", .pstr source_language)]

/-! `RiskAnalyzer` (risk_analyzer.py). -/

/-- The tracked new target-alphabet letters of the risk analyzer
(risk_analyzer.py line 13). -/
def riskNewLetters : List String :=
  ["x", "X", "ə", "Ə", "ä", "Ä", "q", "Q", "ñ", "Ñ", "û", "Û", "ò", "Ò"]

/-- `RiskAnalyzer._find_new_letters` (risk_analyzer.py lines 151-157): the
tracked letters occurring in the text. The source collects matches and
passes them through `list(set(...))`, which only reorders an already
duplicate-free list in an unspecified way; the collection order is kept
here (no checked property depends on the order). -/
def findNewLetters (text : String) : List String :=
  riskNewLetters.filter (fun l => pyContains text l)

/-- The minimal required fields of a risk record
(risk_analyzer.py line 163). -/
def requiredRiskFields : List String :=
  ["letter", "possible_confusions", "languages", "examples", "confidence"]

/-- Coercion of a list-typed field (risk_analyzer.py lines 169-176): a
non-list value is replaced by a one-element list containing its string
form. -/
def wrapIfNotList (kvs : List (String × PyVal)) (f : String) : List (String × PyVal) :=
  match kvGet kvs f with
  | some (.plist _) => kvs
  | some v => kvSet kvs f (.plist [.pstr (pyStrOf 9 v)])
  | none => kvs

/-- The validated confidence value (risk_analyzer.py lines 179-183):
`float(...)` then clamping into `[0, 1]`, with 0.5 on `ValueError` or
`TypeError`. -/
def normalizeConfidence (v : PyVal) : ℚ :=
  match pyFloatOfVal v with
  | some c => pyClamp01 c
  | none => 1/2

/-- `RiskAnalyzer._validate_and_enrich_risk` (risk_analyzer.py lines
159-200): drop on a missing required field; wrap scalar list-fields;
normalize confidence; coerce severity to `medium` outside the allowed set;
default the context text; compute the letter frequency in the text (which
raises, and therefore drops the record, when `letter` is not a string).
Non-dict records always end in the drop path in the source (the membership
test or the subscripting fails) and are dropped directly here. -/
def validateAndEnrichRisk (risk : PyVal) (text : String) : Option PyVal :=
  match risk with
  | .pdict kvs =>
    if requiredRiskFields.all (fun f => kvHas kvs f) then
      let kvs := wrapIfNotList kvs ("possible_confusions")
      let kvs := wrapIfNotList kvs ("languages")
      let kvs := wrapIfNotList kvs ("examples")
      let kvs := kvSet kvs ("confidence")
        (.pnum (normalizeConfidence (kvGetD kvs ("confidence") .pnone)))
      let kvs := if (match kvGet kvs ("severity") with
                     | some (.pstr s) => s = "low" || s = "medium" || s = "high"
                     | _ => false)
                 then kvs else kvSet kvs ("severity") (.pstr ("medium"))
      let kvs := if kvHas kvs ("context") then kvs
                 else kvSet kvs ("context")
                   (.pstr ("Phonetic ambiguity for letter '" ++
                     pyStrOf 9 (kvGetD kvs ("letter") .pnone) ++ "'"))
      match kvGet kvs ("letter") with
      | some (.pstr l) =>
        let cnt := pyCountSub text (pyLower l) + pyCountSub text (pyUpper l)
        some (.pdict (kvSet kvs ("frequency_in_text") (.pnum cnt)))
      | _ => none
    else none
  | _ => none

/-- Increment of the per-letter risk count
(risk_analyzer.py line 230): dict update keyed by Python equality, keeping
first positions. -/
def bumpLetter (lc : List (PyVal × Nat)) (letter : PyVal) : List (PyVal × Nat) :=
  match lc with
  | [] => [(letter, 1)]
  | (l, n) :: rest =>
    if pyEqV l letter then (l, n + 1) :: rest else (l, n) :: bumpLetter rest letter

/-- Stable descending insertion by count: an element goes after every
element with a count at least as large, which matches Python's stable
`sorted(..., reverse=True)`. -/
def insertDescByCount (x : PyVal × Nat) : List (PyVal × Nat) → List (PyVal × Nat)
  | [] => [x]
  | y :: ys => if y.2 ≥ x.2 then y :: insertDescByCount x ys else x :: y :: ys

def sortDescByCount (l : List (PyVal × Nat)) : List (PyVal × Nat) :=
  l.foldl (fun acc x => insertDescByCount x acc) []

/-- Python `set.update(v)`: add each element of the iterable `v`
(raising `TypeError` on a non-iterable `v` or an unhashable element). -/
def pySetUpdateWith (xs : List PyVal) (v : PyVal) : Except PyErr (List PyVal) :=
  match pyIterElems v with
  | .error e => .error e
  | .ok elems =>
    elems.foldlM
      (fun acc e =>
        if pyHashable e then pure (pySetAdd acc e)
        else Except.error (PyErr.typeErr ("unhashable type"))) xs

/-- Accumulator of the risk-statistics loop; `seen` is the traversed part
of the input collection, returned to make explicit that the loop only
reads the records. -/
structure RiskAcc where
  low : Nat
  med : Nat
  high : Nat
  totalConf : ℚ
  letterCounts : List (PyVal × Nat)
  langs : List PyVal
  totalFreq : ℚ
  seen : List PyVal

def riskAccInit : RiskAcc := ⟨0, 0, 0, 0, [], [], 0, []⟩

/-- One iteration of the loop of `_calculate_risk_statistics`
(risk_analyzer.py lines 219-237): severity histogram (a `KeyError` on any
severity outside the three buckets), confidence sum, per-letter count,
language-set update, and frequency sum. -/
def riskStatsStep (acc : RiskAcc) (risk : PyVal) : Except PyErr RiskAcc :=
  match risk with
  | .pdict kvs =>
    let sev := kvGetD kvs ("severity") (.pstr ("medium"))
    match (match sev with
           | .pstr s =>
             if s = "low" then some 0
             else if s = "medium" then some 1
             else if s = "high" then some 2
             else none
           | _ => none) with
    | none => .error (.keyErr ("severity_distribution key"))
    | some sidx =>
      match toPyNumber (kvGetD kvs ("confidence") (.pnum (1/2))) with
      | .error e => .error e
      | .ok conf =>
        let letter := kvGetD kvs ("letter") (.pstr (""))
        if ¬ pyHashable letter then .error (.typeErr ("unhashable type"))
        else
          let lc := bumpLetter acc.letterCounts letter
          match pySetUpdateWith acc.langs (kvGetD kvs ("languages") (.plist [])) with
          | .error e => .error e
          | .ok langs =>
            match toPyNumber (kvGetD kvs ("frequency_in_text") (.pnum 0)) with
            | .error e => .error e
            | .ok freq =>
              .ok ⟨acc.low + (if sidx = 0 then 1 else 0),
                   acc.med + (if sidx = 1 then 1 else 0),
                   acc.high + (if sidx = 2 then 1 else 0),
                   acc.totalConf + conf, lc, langs, acc.totalFreq + freq,
                   acc.seen ++ [risk]⟩
  | _ => .error (.attrErr ("no attribute get"))

/-- Exception-propagating fold of a step function over a record list. -/
def goFoldE {α : Type} (step : α → PyVal → Except PyErr α) : List PyVal → α → Except PyErr α
  | [], acc => .ok acc
  | r :: rest, acc =>
    match step acc r with
    | .error e => .error e
    | .ok acc2 => goFoldE step rest acc2

/-- `RiskAnalyzer._calculate_risk_statistics` (risk_analyzer.py lines
202-252). The second component of the result is the traversed input
collection (the loop performs no assignment to it). The
`language_coverage` list keeps set-insertion order (Python set order is
unspecified). -/
def calcRiskStatistics (risks : List PyVal) (_text : String) : Except PyErr (PyVal × List PyVal) :=
  if risks.isEmpty then .ok (.pdict [("total_risks", .pnum 0)], risks)
  else
    match goFoldE riskStatsStep risks riskAccInit with
    | .error e => .error e
    | .ok acc =>
      let top := (sortDescByCount acc.letterCounts).take 3
      .ok (.pdict [
        ("total_risks", .pnum risks.length),
        ("severity_distribution", .pdict [
          ("low", .pnum acc.low), ("medium", .pnum acc.med), ("high", .pnum acc.high)]),
        ("average_confidence", .pnum (acc.totalConf / risks.length)),
        ("most_problematic_letters", .plist (top.map (fun x => .ptup [x.1, .pnum x.2]))),
        ("language_coverage", .plist acc.langs),
        ("total_new_letters_in_text", .pnum acc.totalFreq)], acc.seen)

/-- The risk-analysis system prompt (risk_analyzer.py lines 15-50); the
fixed instruction text is abridged (no checked property inspects it). -/
def riskSystemPrompt : String :=
  "ROLE: You are a phonetic risk analyzer for CTA-normalized text."

/-- The risk-analysis user prompt (risk_analyzer.py lines 90-106): an
f-string interpolating the text and the joined detected letters; the fixed
instruction tail is abridged. -/
def riskUserPrompt (ota_text : String) (found : List String) : String :=
  "CTA_TEXT:\n\"" ++ ota_text ++ "\"\n\nDETECTED_NEW_LETTERS: " ++
  pyJoin (", ") found ++
  "\n\nTASK:\nAnalyze the phonetic risks and potential confusions for the new CTA letters found in this text. \nFocus particularly on: " ++
  pyJoin (", ") found

/-- The result returned when the text contains none of the tracked letters
(risk_analyzer.py lines 71-87). -/
def noNewLettersResult : PyVal :=
  .pdict [
    ("risks", .plist [.pdict [
      ("letter", .pstr ("none")),
      ("possible_confusions", .plist []),
      ("languages", .plist []),
      ("examples", .plist []),
      ("confidence", .pnum 1),
      ("context", .pstr ("No new CTA letters found in text")),
      ("severity", .pstr ("low"))]]),
    ("statistics", .pdict [
      ("total_risks", .pnum 0),
      ("new_letters_count", .pnum 0)]),
    ("llm_metadata", .pdict [])]

/-- Body of the `try` block of `RiskAnalyzer.analyze_risks`
(risk_analyzer.py lines 108-142): call the client, parse, wrap a lone dict
into a list, validate each record, and aggregate statistics. -/
def analyzeRisksCore (llm : LLMFun) (ota_text : String) (found : List String) : Except PyErr PyVal :=
  match llm riskSystemPrompt (riskUserPrompt ota_text found) (1/5) 2000 with
  | .error e => .error e
  | .ok response =>
    match response with
    | .pdict rsp =>
      match kvGet rsp ("content") with
      | none => .error (.keyErr ("content"))
      | some (.pstr content) =>
        match parseJsonResponse content with
        | .error f => .error (.valueErr (jsonFailureStr f))
        | .ok parsed =>
          match (match parsed with
                 | .pdict _ => Except.ok [parsed]
                 | .plist xs => .ok xs
                 | .ptup xs => .ok xs
                 | .pset xs => .ok xs
                 | .pstr s => .ok (s.toList.map (fun c => PyVal.pstr (String.mk [c])))
                 | _ => Except.error (PyErr.typeErr ("object is not iterable"))) with
          | .error e => .error e
          | .ok risksList =>
            let validated := risksList.filterMap (fun r => validateAndEnrichRisk r ota_text)
            match calcRiskStatistics validated ota_text with
            | .error e => .error e
            | .ok (stats, _) =>
              .ok (.pdict [
                ("risks", .plist validated),
                ("statistics", stats),
                ("llm_metadata", .pdict [
                  ("model", kvGetD rsp ("model") .pnone),
                  ("usage", kvGetD rsp ("usage") .pnone),
                  ("response_time", kvGetD rsp ("response_time") .pnone)])])
      | some _ => .error (.attrErr ("no attribute strip"))
    | _ => .error (.typeErr ("response is not a dict"))

/-- `RiskAnalyzer.analyze_risks` (risk_analyzer.py lines 52-149): empty
text is rejected first; a text without tracked letters returns the
placeholder result before any client call; otherwise the pipeline runs and
any raised exception becomes the failure dict of the `except` clause. -/
def analyzeRisks (llm : LLMFun) (ota_text : String) : PyVal :=
  if pyStrip ota_text = "" then
    .pdict [("risks", .plist []),
      ("error", .pstr ("Empty text - CTA text is required for risk analysis"))]
  else
    let found := findNewLetters ota_text
    if found.isEmpty then noNewLettersResult
    else
      match analyzeRisksCore llm ota_text found with
      | .ok r => r
      | .error e =>
        .pdict [("risks", .plist []),
          ("error", .pstr ("Risk analysis error: " ++ pyErrStr e)),
          ("input_text", .pstr ota_text)]

/-! `CognateAligner` (cognate_aligner.py). -/

/-- Item coercion of `_validate_group` (cognate_aligner.py lines 249-256):
keep the items that are dicts with `lang` and `original` keys, adding the
`ota` fallback (a copy of `original`) when absent. -/
def coerceItems : List PyVal → List PyVal
  | [] => []
  | i :: rest =>
    match i with
    | .pdict ikv =>
      if kvHas ikv ("lang") && kvHas ikv ("original") then
        .pdict (if kvHas ikv ("ota") then ikv
                else kvSet ikv ("ota") (kvGetD ikv ("original") .pnone)) :: coerceItems rest
      else coerceItems rest
    | _ => coerceItems rest

/-- The number of valid items of a group after coercion (the quantity the
two-member requirement of `_validate_group` is checked against); zero when
the group is not a dict or its `items` field is not a list (iterating a
string or dict yields no dict elements, and the remaining non-iterables
raise, so every such group is dropped). -/
def validItemCount (group : PyVal) : Nat :=
  match group with
  | .pdict kvs =>
    match kvGet kvs ("items") with
    | some (.plist items) => (coerceItems items).length
    | _ => 0
  | _ => 0

/-- The similarity value after the coercion step of `_validate_group`
(cognate_aligner.py lines 246-247): values outside the three tiers become
`medium`. -/
def coerceSimilarityVal (v : PyVal) : PyVal :=
  match v with
  | .pstr s => if s = "high" || s = "medium" || s = "low" then .pstr s else .pstr ("medium")
  | _ => .pstr ("medium")

/-- The tier string of a similarity value (used for the confidence-default
lookup). -/
def tierOf (v : PyVal) : String :=
  match v with
  | .pstr s => s
  | _ => ""

/-- The tier-based confidence default of `_validate_group`
(cognate_aligner.py lines 264-267): `{"high": 0.8, "medium": 0.6,
"low": 0.4}.get(similarity, 0.5)`. -/
def confidenceDefaultMap (sim : String) : ℚ :=
  if sim = "high" then 4/5
  else if sim = "medium" then 3/5
  else if sim = "low" then 2/5
  else 1/2

/-- The similarity coercion statement of `_validate_group`
(cognate_aligner.py lines 246-247): reassigns `similarity` to `medium`
when its value is outside the tier set. -/
def simCoerceStep (kvs : List (String × PyVal)) : List (String × PyVal) :=
  if (match kvGet kvs ("similarity") with
      | some (.pstr s) => s = "high" || s = "medium" || s = "low"
      | _ => false)
  then kvs else kvSet kvs ("similarity") (.pstr ("medium"))

/-- The confidence default of `_validate_group` (cognate_aligner.py lines
263-267): when `confidence` is absent, fill it from the similarity tier. -/
def confDefaultStep (kvs : List (String × PyVal)) : List (String × PyVal) :=
  if kvHas kvs ("confidence") then kvs
  else kvSet kvs ("confidence") (.pnum (confidenceDefaultMap
    (match kvGet kvs ("similarity") with
     | some (.pstr s) => s
     | _ => "")))

/-- The root-analysis default of `_validate_group` (cognate_aligner.py
lines 269-271). -/
def rootDefaultStep (kvs : List (String × PyVal)) : List (String × PyVal) :=
  if kvHas kvs ("root_analysis") then kvs
  else kvSet kvs ("root_analysis") (.pstr ("Root analysis not provided"))

/-- `CognateAligner._validate_group` (cognate_aligner.py lines 236-276):
drop on a missing required field (`similarity`, `items`, `rationale`);
coerce an out-of-set similarity to `medium`; keep only well-formed items
(adding the `ota` fallback) and drop the whole group when fewer than two
remain; default `confidence` from the similarity tier and `root_analysis`
to the placeholder when absent. A non-dict group always ends in the drop
path in the source and is dropped directly here; a non-list `items` value
either yields no dict items or raises, and is likewise dropped. -/
def validateGroup (group : PyVal) : Option PyVal :=
  match group with
  | .pdict kvs =>
    if kvHas kvs ("similarity") && kvHas kvs ("items") && kvHas kvs ("rationale") then
      match kvGet (simCoerceStep kvs) ("items") with
      | some (.plist items) =>
        if (coerceItems items).length < 2 then none
        else some (.pdict (rootDefaultStep (confDefaultStep
          (kvSet (simCoerceStep kvs) ("items") (.plist (coerceItems items))))))
      | _ => none
    else none
  | _ => none

/-- Accumulator of the alignment-statistics loop; `seen` is the traversed
part of the input collection. -/
structure AlignAcc where
  totalWords : Nat
  simHigh : Nat
  simMed : Nat
  simLow : Nat
  totalConf : ℚ
  langs : List PyVal
  seen : List PyVal

def alignAccInit : AlignAcc := ⟨0, 0, 0, 0, 0, [], []⟩

/-- One iteration of the loop of `_calculate_alignment_statistics`
(cognate_aligner.py lines 298-315): group size via `len`, similarity
histogram (`KeyError` outside the three buckets), confidence sum, and the
language set fed from each item's truthy `lang`. -/
def alignStatsStep (acc : AlignAcc) (group : PyVal) : Except PyErr AlignAcc :=
  match group with
  | .pdict kvs =>
    match pyLen (kvGetD kvs ("items") (.plist [])) with
    | .error e => .error e
    | .ok gsize =>
      let sim := kvGetD kvs ("similarity") (.pstr ("medium"))
      match (match sim with
             | .pstr s =>
               if s = "high" then some 0
               else if s = "medium" then some 1
               else if s = "low" then some 2
               else none
             | _ => none) with
      | none => .error (.keyErr ("similarity_distribution key"))
      | some sidx =>
        match toPyNumber (kvGetD kvs ("confidence") (.pnum (1/2))) with
        | .error e => .error e
        | .ok conf =>
          match pyIterElems (kvGetD kvs ("items") (.plist [])) with
          | .error e => .error e
          | .ok items =>
            match items.foldlM
                (fun (ls : List PyVal) item =>
                  match item with
                  | .pdict ikv =>
                    let lang := kvGetD ikv ("lang") (.pstr (""))
                    if pyTruthy lang then
                      if pyHashable lang then pure (pySetAdd ls lang)
                      else Except.error (PyErr.typeErr ("unhashable type"))
                    else pure ls
                  | _ => Except.error (PyErr.attrErr ("no attribute get"))) acc.langs with
            | .error e => .error e
            | .ok langs =>
              .ok ⟨acc.totalWords + gsize,
                   acc.simHigh + (if sidx = 0 then 1 else 0),
                   acc.simMed + (if sidx = 1 then 1 else 0),
                   acc.simLow + (if sidx = 2 then 1 else 0),
                   acc.totalConf + conf, langs, acc.seen ++ [group]⟩
  | _ => .error (.attrErr ("no attribute get"))

/-- `CognateAligner._calculate_alignment_statistics` (cognate_aligner.py
lines 278-323). With no groups the initial statistics dict is returned as
is (its `language_coverage` still the empty set); otherwise the loop runs
and the derived ratios are filled in, with the zero-guard on the alignment
rate. The second component of the result is the traversed input
collection. -/
def calcAlignmentStatistics (groups : List PyVal) (cands : List PyVal) : Except PyErr (PyVal × List PyVal) :=
  if groups.isEmpty then
    .ok (.pdict [
      ("total_input_words", .pnum cands.length),
      ("total_aligned_words", .pnum 0),
      ("groups_found", .pnum 0),
      ("average_group_size", .pnum 0),
      ("similarity_distribution", .pdict [
        ("high", .pnum 0), ("medium", .pnum 0), ("low", .pnum 0)]),
      ("language_coverage", .pset []),
      ("average_confidence", .pnum 0),
      ("alignment_rate", .pnum 0)], groups)
  else
    match goFoldE alignStatsStep groups alignAccInit with
    | .error e => .error e
    | .ok acc =>
      .ok (.pdict [
        ("total_input_words", .pnum cands.length),
        ("total_aligned_words", .pnum acc.totalWords),
        ("groups_found", .pnum groups.length),
        ("average_group_size", .pnum ((acc.totalWords : ℚ) / (groups.length : ℚ))),
        ("similarity_distribution", .pdict [
          ("high", .pnum acc.simHigh), ("medium", .pnum acc.simMed),
          ("low", .pnum acc.simLow)]),
        ("language_coverage", .plist acc.langs),
        ("average_confidence", .pnum (acc.totalConf / (groups.length : ℚ))),
        ("alignment_rate", .pnum (if cands.isEmpty then 0
          else (acc.totalWords : ℚ) / (cands.length : ℚ)))], acc.seen)

/-! `PCEAnalyzer` (pce_analyzer.py). -/

/-- `PCEAnalyzer._detect_new_letters` (pce_analyzer.py lines 194-201):
counts of the new letters in the lowercased text, keeping letters that
occur. The source iterates a Python set (`'qxñəûò'`) whose order is
unspecified; the literal's order is used here (no checked property
depends on it). -/
def detectNewLettersPce (text : String) : PyVal :=
  let letters := ["q", "x", "ñ", "ə", "û", "ò"]
  .pdict (letters.foldl
    (fun acc l =>
      let c := pyCountSub (pyLower text) (pyLower l)
      if c > 0 then acc ++ [(l, .pnum c)] else acc) [])

/-- `PCEAnalyzer._rate_effectiveness` (pce_analyzer.py lines 203-214). -/
def ratePceEffectiveness (improvement : ℚ) : String :=
  if improvement > 18 then "Mükemmel"
  else if improvement > 15 then "Çok İyi"
  else if improvement > 12 then "İyi"
  else if improvement > 8 then "Orta"
  else "Düşük"

/-- The recommendation strings of `_generate_recommendations` as a
function of the two improvement values (pce_analyzer.py lines 219-235). -/
def pceRecommendationsList (w l : ℚ) : List PyVal :=
  (if w > 15 then
    [.pstr ("CTA alfabesi fonetik temsilde önemli iyileştirme sağlamış"),
     .pstr ("Akademik çalışmalarda CTA kullanımı önerilir")] else []) ++
  (if l > 10 then
    [.pstr ("Büyük veri setlerinde tutarlı performans gösteriyor"),
     .pstr ("Ölçeklenebilir uygulamalar için uygun")] else []) ++
  (if w < 10 then
    [.pstr ("Daha fazla fonetik optimizasyon gerekebilir"),
     .pstr ("Ek CTA harflerinin kullanımı artırılabilir")] else [])

/-- `PCEAnalyzer._generate_recommendations` (pce_analyzer.py lines
216-235): threshold-dependent Turkish recommendation strings, raising
`TypeError` when the improvement fields are not comparable to numbers. -/
def pceRecommendations (cmp : List (String × PyVal)) : Except PyErr (List PyVal) :=
  match toPyNumber (kvGetD cmp ("weighted_improvement") (.pnum 0)) with
  | .error e => .error e
  | .ok w =>
    match toPyNumber (kvGetD cmp ("logarithmic_improvement") (.pnum 0)) with
    | .error e => .error e
    | .ok l => .ok (pceRecommendationsList w l)

/-- `PCEAnalyzer._enrich_pce_result` (pce_analyzer.py lines 156-192):
attach the `metadata` dict (the wall-clock timestamp is passed in as an
explicit argument), and when a `comparison` key is present derive the
assessment from its `weighted_improvement` (default 0). Exceptions inside
the enrichment are caught by the source and recorded under
`enrichment_error` (the stored message text is representative); a non-dict
result makes both the `try` body and the handler raise, which propagates. -/
def enrichPceResult (result : PyVal) (original_text ota_text dataset_name ts : String) : Except PyErr PyVal :=
  match result with
  | .pdict kvs =>
    let kvs := kvSet kvs ("metadata") (.pdict [
      ("dataset_name", .pstr dataset_name),
      ("original_length", .pnum original_text.length),
      ("ota_length", .pnum ota_text.length),
      ("analysis_timestamp", .pstr ts),
      ("new_letters_detected", detectNewLettersPce ota_text)])
    if kvHas kvs ("comparison") then
      match kvGet kvs ("comparison") with
      | some (.pdict cmp) =>
        match toPyNumber (kvGetD cmp ("weighted_improvement") (.pnum 0)) with
        | .error e => .ok (.pdict (kvSet kvs ("enrichment_error") (.pstr (pyErrStr e))))
        | .ok w =>
          let category :=
            if w > 15 then "Yüksek İyileştirme"
            else if w > 10 then "Orta İyileştirme"
            else "Düşük İyileştirme"
          match pceRecommendations cmp with
          | .error e => .ok (.pdict (kvSet kvs ("enrichment_error") (.pstr (pyErrStr e))))
          | .ok recs =>
            .ok (.pdict (kvSet kvs ("assessment") (.pdict [
              ("improvement_category", .pstr category),
              ("effectiveness_rating", .pstr (ratePceEffectiveness w)),
              ("recommendations", .plist recs)])))
      | _ => .ok (.pdict (kvSet kvs ("enrichment_error") (.pstr ("no attribute get"))))
    else .ok (.pdict kvs)
  | _ => .error (.typeErr ("result is not a dict"))

/-- The PCE system prompt (pce_analyzer.py lines 21-77); the fixed
instruction text is abridged (no checked property inspects it). -/
def pceSystemPrompt : String :=
  "ROLE: You are a PCE (Phonetic Correspondence Effectiveness) analyzer for writing systems."

/-- The PCE user prompt (pce_analyzer.py lines 96-125): an f-string
interpolating both texts and the dataset name; the fixed instruction tail
is abridged. -/
def pceUserPrompt (original_text ota_text dataset_name : String) : String :=
  "ORIGINAL_TEXT:\n" ++ original_text ++ "\n\nCTA_TEXT:\n" ++ ota_text ++
  "\n\nDATASET: " ++ dataset_name ++
  "\n\nTASK:\nPerform ACCURATE PCE analysis using the correct formulas:"

/-- Python `s[:100] + "..." if len(s) > 100 else s`
(pce_analyzer.py lines 152-153). -/
def truncate100 (s : String) : String :=
  if s.length > 100 then String.mk (s.toList.take 100) ++ "..." else s

/-- Body of the `try` block of `PCEAnalyzer.analyze_pce` (pce_analyzer.py
lines 94-147): call the client, parse, enrich, and attach
`llm_metadata`. -/
def analyzePceCore (llm : LLMFun) (ts original_text ota_text dataset_name : String) : Except PyErr PyVal :=
  match llm pceSystemPrompt (pceUserPrompt original_text ota_text dataset_name) (1/10) 3000 with
  | .error e => .error e
  | .ok response =>
    match response with
    | .pdict rsp =>
      match kvGet rsp ("content") with
      | none => .error (.keyErr ("content"))
      | some (.pstr content) =>
        match parseJsonResponse content with
        | .error f => .error (.valueErr (jsonFailureStr f))
        | .ok result =>
          match enrichPceResult result original_text ota_text dataset_name ts with
          | .error e => .error e
          | .ok enriched =>
            match enriched with
            | .pdict ekv =>
              .ok (.pdict (kvSet ekv ("llm_metadata") (.pdict [
                ("model", kvGetD rsp ("model") .pnone),
                ("usage", kvGetD rsp ("usage") .pnone),
                ("response_time", kvGetD rsp ("response_time") .pnone)])))
            | _ => .error (.typeErr ("enriched result is not a dict"))
      | some _ => .error (.attrErr ("no attribute strip"))
    | _ => .error (.typeErr ("response is not a dict"))

/-- `PCEAnalyzer.analyze_pce` (pce_analyzer.py lines 79-154): empty
original or normalized text is rejected before any client call; otherwise
the pipeline runs and any raised exception becomes the failure dict of
the `except` clause. The timestamp used inside the enrichment is passed
in as an explicit argument. -/
def analyzePce (llm : LLMFun) (ts original_text ota_text dataset_name : String) : PyVal :=
  if pyStrip original_text = "" || pyStrip ota_text = "" then
    .pdict [("error", .pstr ("Empty text - both original and CTA text required"))]
  else
    match analyzePceCore llm ts original_text ota_text dataset_name with
    | .ok r => r
    | .error e =>
      .pdict [("error", .pstr ("PCE analizi hatası: " ++ pyErrStr e)),
        ("original_text", .pstr (truncate100 original_text)),
        ("ota_text", .pstr (truncate100 ota_text))]

/-- Lookup `v[k]` on a dict value, used to state properties of result
dictionaries. -/
def pvField (v : PyVal) (k : String) : Option PyVal :=
  match v with
  | .pdict kvs => kvGet kvs k
  | _ => none

/-- Nested lookup `v[k1][k2]` on dict values, used to state properties of
result dictionaries. -/
def kvGet2 (v : PyVal) (k1 k2 : String) : Option PyVal :=
  match v with
  | .pdict kvs =>
    match kvGet kvs k1 with
    | some (.pdict kvs2) => kvGet kvs2 k2
    | _ => none
  | _ => none

/-- The `comparison.weighted_improvement` value of a successful enrichment
result. -/
def exceptComparisonWeighted (r : Except PyErr PyVal) : Option PyVal :=
  match r with
  | .ok out => kvGet2 out ("comparison") ("weighted_improvement")
  | .error _ => none

/-- Whether an `Except` computation succeeded. -/
def isOkE {ε α : Type} : Except ε α → Bool
  | .ok _ => true
  | .error _ => false

/-- The `confidence` field of an optional validated record. -/
def validatedConfidence (r : Option PyVal) : Option PyVal :=
  match r with
  | some (.pdict kvs) => kvGet kvs ("confidence")
  | _ => none

/-- A named field of an optional validated record. -/
def validatedField (r : Option PyVal) (k : String) : Option PyVal :=
  match r with
  | some (.pdict kvs) => kvGet kvs k
  | _ => none

/-! Supporting lemmas. -/

theorem kvGet_kvSet_self (kvs : List (String × PyVal)) (k : String) (v : PyVal) :
    kvGet (kvSet kvs k v) k = some v := by
  induction kvs with
  | nil => simp [kvSet, kvGet]
  | cons kv rest ih =>
    obtain ⟨k2, v2⟩ := kv
    by_cases h : k2 = k
    · simp [kvSet, h, kvGet]
    · simp [kvSet, h, kvGet, ih]

theorem kvGet_kvSet_ne (kvs : List (String × PyVal)) (k k' : String) (v : PyVal)
    (h : k' ≠ k) : kvGet (kvSet kvs k v) k' = kvGet kvs k' := by
  have hne : ¬ k = k' := fun hh => h hh.symm
  induction kvs with
  | nil => simp [kvSet, kvGet, hne]
  | cons kv rest ih =>
    obtain ⟨k2, v2⟩ := kv
    by_cases h2 : k2 = k
    · simp [kvSet, kvGet, h2, hne]
    · by_cases h3 : k2 = k'
      · simp [kvSet, kvGet, h2, h3, h]
      · simp [kvSet, kvGet, h2, h3, ih]

/-! Claim theorems. -/

/-- Claim C8: for each task entry point (`transliterate`, `analyze_risks`,
`analyze_pce`), an empty or whitespace-only primary text input is rejected
with the module's error-carrying result dict before any generation-service
call is made (the result is the early-return literal of the source and is
independent of the client argument, which is never invoked on this
path). -/
theorem c8_empty_primary_text_rejected
    (llm : LLMFun) (text lang ts orig ota ds : String) :
    (pyStrip text = "" →
      transliterate llm text lang =
        .pdict [("ok", .pbool false), ("error", .pstr ("Empty text"))] ∧
      analyzeRisks llm text =
        .pdict [("risks", .plist []),
          ("error", .pstr ("Empty text - CTA text is required for risk analysis"))]) ∧
    ((pyStrip orig = "" ∨ pyStrip ota = "") →
      analyzePce llm ts orig ota ds =
        .pdict [("error", .pstr ("Empty text - both original and CTA text required"))]) := by
  constructor
  · intro h
    exact ⟨by simp [transliterate, h], by simp [analyzeRisks, h]⟩
  · intro h
    rcases h with h | h <;> simp [analyzePce, h]

/-- Witness for C8 at concrete whitespace-only inputs. -/
theorem c8_empty_primary_text_rejected_witness :
    transliterate (fun _ _ _ _ => .error (.valueErr ("unused"))) ("  ") ("Turkish") =
      .pdict [("ok", .pbool false), ("error", .pstr ("Empty text"))] ∧
    analyzeRisks (fun _ _ _ _ => .error (.valueErr ("unused"))) ("  ") =
      .pdict [("risks", .plist []),
        ("error", .pstr ("Empty text - CTA text is required for risk analysis"))] ∧
    analyzePce (fun _ _ _ _ => .error (.valueErr ("unused"))) ("ts") ("") ("x") ("d") =
      .pdict [("error", .pstr ("Empty text - both original and CTA text required"))] := by
  have h := c8_empty_primary_text_rejected
    (fun _ _ _ _ => .error (.valueErr ("unused"))) ("  ") ("Turkish") ("ts") ("") ("x") ("d")
  exact ⟨(h.1 rfl).1, (h.1 rfl).2, h.2 (Or.inl rfl)⟩

/-- Claim C7: a non-empty risk-analysis input containing none of the
tracked special letters returns, for every client (none is invoked on this
path), the success result holding exactly one placeholder record with
confidence 1.0 and severity `low`. -/
theorem c7_no_tracked_letters_placeholder (llm : LLMFun) (text : String)
    (h1 : pyStrip text ≠ "") (h2 : findNewLetters text = []) :
    analyzeRisks llm text = noNewLettersResult := by
  simp [analyzeRisks, h1, h2]

/-- Witness for C7 at a concrete letter-free text. -/
theorem c7_no_tracked_letters_placeholder_witness :
    analyzeRisks (fun _ _ _ _ => .error (.valueErr ("unused"))) ("merhaba") =
      noNewLettersResult :=
  c7_no_tracked_letters_placeholder _ ("merhaba") (by decide) (by decide)

theorem kvGet_wrapIfNotList_ne (kvs : List (String × PyVal)) (f k : String)
    (h : k ≠ f) : kvGet (wrapIfNotList kvs f) k = kvGet kvs k := by
  unfold wrapIfNotList
  split
  · rfl
  · exact kvGet_kvSet_ne _ _ _ _ h
  · rfl

/-- Claim C3: the risk validator drops a record missing any required field;
a record that validates has its confidence replaced by the normalized
value, which parses numeric strings, clamps finite values into `[0, 1]`,
defaults to 0.5 on non-numeric input, and always lands in `[0, 1]`. -/
theorem c3_risk_validator (kvs : List (String × PyVal)) (text : String) :
    ((∃ f ∈ requiredRiskFields, kvHas kvs f = false) →
      validateAndEnrichRisk (.pdict kvs) text = none) ∧
    (∀ r', validateAndEnrichRisk (.pdict kvs) text = some r' →
      ∀ v, kvGet kvs ("confidence") = some v →
        ∃ rkv, r' = .pdict rkv ∧
          kvGet rkv ("confidence") = some (.pnum (normalizeConfidence v))) ∧
    (∀ v q, pyFloatOfVal v = some (.fin q) →
      normalizeConfidence v = max 0 (min 1 q)) ∧
    (∀ v, pyFloatOfVal v = none → normalizeConfidence v = 1/2) ∧
    (∀ v, 0 ≤ normalizeConfidence v ∧ normalizeConfidence v ≤ 1) := by
  refine ⟨?_, ?_, ?_, ?_, ?_⟩
  · rintro ⟨f, hf, hmiss⟩
    cases hall : requiredRiskFields.all (fun f => kvHas kvs f) with
    | true =>
      exfalso
      rw [List.all_eq_true] at hall
      have := hall f hf
      simp [hmiss] at this
    | false => simp [validateAndEnrichRisk, hall]
  · intro r' hsucc v hv
    cases hall : requiredRiskFields.all (fun f => kvHas kvs f) with
    | false => simp [validateAndEnrichRisk, hall] at hsucc
    | true =>
      rw [validateAndEnrichRisk] at hsucc
      simp only [hall, if_true] at hsucc
      split at hsucc
      case h_1 l hl =>
        refine ⟨_, (Option.some_injective _ hsucc).symm, ?_⟩
        rw [kvGet_kvSet_ne _ _ _ _ (by decide)]
        have hctx : ∀ (K : List (String × PyVal)) (x : PyVal),
            kvGet (if kvHas K ("context") then K else kvSet K ("context") x) ("confidence") =
              kvGet K ("confidence") := by
          intro K x
          by_cases hc : kvHas K ("context")
          · simp [hc]
          · simp [hc, kvGet_kvSet_ne _ _ _ _ (by decide : ("confidence" : String) ≠ "context")]
        rw [hctx]
        have hsev : ∀ (K : List (String × PyVal)) (c : Prop) [Decidable c] (x : PyVal),
            kvGet (if c then K else kvSet K ("severity") x) ("confidence") =
              kvGet K ("confidence") := by
          intro K c _ x
          by_cases hc : c
          · simp [hc]
          · simp [hc, kvGet_kvSet_ne _ _ _ _ (by decide : ("confidence" : String) ≠ "severity")]
        rw [hsev]
        rw [kvGet_kvSet_self]
        have hpass : kvGet (wrapIfNotList (wrapIfNotList (wrapIfNotList kvs
            ("possible_confusions")) ("languages")) ("examples")) ("confidence") =
            kvGet kvs ("confidence") := by
          rw [kvGet_wrapIfNotList_ne _ _ _ (by decide),
              kvGet_wrapIfNotList_ne _ _ _ (by decide),
              kvGet_wrapIfNotList_ne _ _ _ (by decide)]
        rw [show kvGetD (wrapIfNotList (wrapIfNotList (wrapIfNotList kvs
            ("possible_confusions")) ("languages")) ("examples")) ("confidence") .pnone =
            v from by rw [kvGetD, hpass, hv]; rfl]
      case h_2 hne => simp at hsucc
  · intro v q h
    simp only [normalizeConfidence, h, pyClamp01]
    by_cases h1 : q < 1
    · by_cases h2 : q > 0
      · simp [h1, h2, min_eq_right h1.le, max_eq_right h2.le]
      · push_neg at h2
        simp [h1, h2.not_lt, min_eq_right h1.le, max_eq_left h2]
    · push_neg at h1
      simp [not_lt.mpr h1, min_eq_left h1, max_eq_right (by norm_num : (0 : ℚ) ≤ 1)]
  · intro v h
    simp [normalizeConfidence, h]
  · intro v
    unfold normalizeConfidence
    cases hf : pyFloatOfVal v with
    | none => norm_num
    | some c =>
      cases c with
      | fin q =>
        simp only [pyClamp01]
        constructor
        · split_ifs with h1 h2
          · linarith
          · norm_num
          · norm_num
        · split_ifs with h1 h2
          · linarith
          · norm_num
          · norm_num
      | pinf => simp [pyClamp01]
      | pninf => simp [pyClamp01]
      | pnan => simp [pyClamp01]

/-- Witness for C3: a record missing `confidence` is dropped; a record
with the numeric string confidence `"0.95"` validates to 0.95; one with
1.4 clamps to 1.0 (end-to-end scenario B of the specification). -/
theorem c3_risk_validator_witness :
    validateAndEnrichRisk (.pdict [("letter", .pstr ("x")),
      ("possible_confusions", .plist []), ("languages", .plist []),
      ("examples", .plist [])]) ("metin") = none ∧
    validatedConfidence (validateAndEnrichRisk (.pdict [("letter", .pstr ("x")),
      ("possible_confusions", .plist []), ("languages", .plist []),
      ("examples", .plist []), ("confidence", .pstr ("0.95"))]) ("metin")) =
      some (.pnum (19/20)) ∧
    validatedConfidence (validateAndEnrichRisk (.pdict [("letter", .pstr ("x")),
      ("possible_confusions", .plist []), ("languages", .plist []),
      ("examples", .plist []), ("confidence", .pnum (7/5))]) ("metin")) =
      some (.pnum 1) := by
  refine ⟨?_, ?_, ?_⟩
  · exact (c3_risk_validator _ ("metin")).1 ⟨"confidence", by decide, by decide⟩
  · obtain ⟨r', hval⟩ := Option.isSome_iff_exists.mp
      (by with_unfolding_all rfl :
        (validateAndEnrichRisk (.pdict [("letter", .pstr ("x")),
          ("possible_confusions", .plist []), ("languages", .plist []),
          ("examples", .plist []), ("confidence", .pstr ("0.95"))]) ("metin")).isSome = true)
    obtain ⟨rkv, hrk, hconf⟩ :=
      (c3_risk_validator _ ("metin")).2.1 r' hval (.pstr ("0.95")) (by rfl)
    rw [hval, hrk, validatedConfidence, hconf]
    have : normalizeConfidence (.pstr ("0.95")) = 19/20 := by with_unfolding_all rfl
    rw [this]
  · obtain ⟨r', hval⟩ := Option.isSome_iff_exists.mp
      (by with_unfolding_all rfl :
        (validateAndEnrichRisk (.pdict [("letter", .pstr ("x")),
          ("possible_confusions", .plist []), ("languages", .plist []),
          ("examples", .plist []), ("confidence", .pnum (7/5))]) ("metin")).isSome = true)
    obtain ⟨rkv, hrk, hconf⟩ :=
      (c3_risk_validator _ ("metin")).2.1 r' hval (.pnum (7/5)) (by rfl)
    rw [hval, hrk, validatedConfidence, hconf]
    have : normalizeConfidence (.pnum (7/5)) = 1 := by with_unfolding_all rfl
    rw [this]

theorem kvGet_defIte_ne (c : Prop) [Decidable c] (kvs : List (String × PyVal))
    (f k : String) (x : PyVal) (h : k ≠ f) :
    kvGet (if c then kvs else kvSet kvs f x) k = kvGet kvs k := by
  by_cases hc : c
  · simp [hc]
  · simp [hc, kvGet_kvSet_ne _ _ _ _ h]

theorem coerceSimilarityVal_is_str (v : PyVal) : ∃ s, coerceSimilarityVal v = .pstr s := by
  cases v with
  | pstr s =>
    by_cases h : (s = "high" || s = "medium" || s = "low") = true
    · exact ⟨s, by simp [coerceSimilarityVal, h]⟩
    · exact ⟨"medium", by simp [coerceSimilarityVal, h]⟩
  | pnone => exact ⟨"medium", rfl⟩
  | pbool b => exact ⟨"medium", rfl⟩
  | pnum q => exact ⟨"medium", rfl⟩
  | plist xs => exact ⟨"medium", rfl⟩
  | pdict d => exact ⟨"medium", rfl⟩
  | ptup xs => exact ⟨"medium", rfl⟩
  | pset xs => exact ⟨"medium", rfl⟩

theorem kvGet_simCoerceStep_ne (kvs : List (String × PyVal)) (k : String)
    (h : k ≠ "similarity") : kvGet (simCoerceStep kvs) k = kvGet kvs k :=
  kvGet_defIte_ne _ _ _ _ _ h

theorem kvGet_confDefaultStep_ne (kvs : List (String × PyVal)) (k : String)
    (h : k ≠ "confidence") : kvGet (confDefaultStep kvs) k = kvGet kvs k :=
  kvGet_defIte_ne _ _ _ _ _ h

theorem kvGet_rootDefaultStep_ne (kvs : List (String × PyVal)) (k : String)
    (h : k ≠ "root_analysis") : kvGet (rootDefaultStep kvs) k = kvGet kvs k :=
  kvGet_defIte_ne _ _ _ _ _ h

theorem kvGet_simCoerceStep_sim (kvs : List (String × PyVal)) (simv : PyVal)
    (hsim : kvGet kvs ("similarity") = some simv) :
    kvGet (simCoerceStep kvs) ("similarity") = some (coerceSimilarityVal simv) := by
  unfold simCoerceStep
  rw [hsim]
  cases simv with
  | pstr s2 =>
    by_cases hv : (s2 = "high" || s2 = "medium" || s2 = "low") = true
    · rw [if_pos hv, hsim]
      simp [coerceSimilarityVal, hv]
    · have hv2 : (s2 = "high" || s2 = "medium" || s2 = "low") = false := by
        simpa using hv
      rw [if_neg (by simp [hv2]), kvGet_kvSet_self]
      simp [coerceSimilarityVal, hv2]
  | pnone => rw [if_neg (by simp), kvGet_kvSet_self]; rfl
  | pbool b => rw [if_neg (by simp), kvGet_kvSet_self]; rfl
  | pnum q => rw [if_neg (by simp), kvGet_kvSet_self]; rfl
  | plist xs => rw [if_neg (by simp), kvGet_kvSet_self]; rfl
  | pdict d => rw [if_neg (by simp), kvGet_kvSet_self]; rfl
  | ptup xs => rw [if_neg (by simp), kvGet_kvSet_self]; rfl
  | pset xs => rw [if_neg (by simp), kvGet_kvSet_self]; rfl

theorem kvGet_confDefaultStep_conf (kvs : List (String × PyVal)) :
    kvGet (confDefaultStep kvs) ("confidence") =
      (match kvGet kvs ("confidence") with
       | some c => some c
       | none => some (.pnum (confidenceDefaultMap
           (match kvGet kvs ("similarity") with
            | some (.pstr s) => s
            | _ => "")))) := by
  unfold confDefaultStep
  cases hc : kvGet kvs ("confidence") with
  | some c => rw [if_pos (by simp [kvHas, hc]), hc]
  | none => rw [if_neg (by simp [kvHas, hc]), kvGet_kvSet_self]

theorem kvGet_rootDefaultStep_root (kvs : List (String × PyVal)) :
    kvGet (rootDefaultStep kvs) ("root_analysis") =
      (match kvGet kvs ("root_analysis") with
       | some c => some c
       | none => some (.pstr ("Root analysis not provided"))) := by
  unfold rootDefaultStep
  cases hc : kvGet kvs ("root_analysis") with
  | some c => rw [if_pos (by simp [kvHas, hc]), hc]
  | none => rw [if_neg (by simp [kvHas, hc]), kvGet_kvSet_self]

/-- Claim C4: the cognate-group validator drops a group with fewer than two
valid items after coercion; a group with the required fields and at least
two well-formed items is retained, with its similarity coerced into the
tier set, its confidence defaulted from the similarity tier when absent
(high to 0.8, medium to 0.6, low to 0.4) and its root analysis defaulted
to the placeholder when absent. -/
theorem c4_cognate_group_validator :
    (∀ g : PyVal, validItemCount g < 2 → validateGroup g = none) ∧
    (∀ (kvs : List (String × PyVal)) (items : List PyVal) (simv : PyVal),
      kvGet kvs ("items") = some (.plist items) →
      kvGet kvs ("similarity") = some simv →
      kvHas kvs ("rationale") = true →
      2 ≤ (coerceItems items).length →
      ∃ gkv, validateGroup (.pdict kvs) = some (.pdict gkv) ∧
        kvGet gkv ("items") = some (.plist (coerceItems items)) ∧
        kvGet gkv ("similarity") = some (coerceSimilarityVal simv) ∧
        kvGet gkv ("confidence") = (match kvGet kvs ("confidence") with
          | some c => some c
          | none => some (.pnum (confidenceDefaultMap (tierOf (coerceSimilarityVal simv))))) ∧
        kvGet gkv ("root_analysis") = (match kvGet kvs ("root_analysis") with
          | some c => some c
          | none => some (.pstr ("Root analysis not provided")))) ∧
    (confidenceDefaultMap ("high") = 4/5 ∧ confidenceDefaultMap ("medium") = 3/5 ∧
      confidenceDefaultMap ("low") = 2/5) := by
  refine ⟨?_, ?_, by simp [confidenceDefaultMap]⟩
  · intro g hlt
    cases g with
    | pdict kvs =>
      by_cases hreq : (kvHas kvs ("similarity") && kvHas kvs ("items") && kvHas kvs ("rationale")) = true
      · simp only [validateGroup]
        rw [if_pos hreq, kvGet_simCoerceStep_ne _ _ (by decide)]
        cases hi : kvGet kvs ("items") with
        | none => rfl
        | some v =>
          cases v with
          | plist items =>
            have h2 : (coerceItems items).length < 2 := by
              simpa [validItemCount, hi] using hlt
            simp [h2]
          | pnone => rfl
          | pbool b => rfl
          | pnum q => rfl
          | pstr s => rfl
          | pdict d => rfl
          | ptup t => rfl
          | pset t => rfl
      · have hreq2 : (kvHas kvs ("similarity") && kvHas kvs ("items") && kvHas kvs ("rationale")) = false := by
          simpa using hreq
        simp [validateGroup, hreq2]
    | pnone => rfl
    | pbool b => rfl
    | pnum q => rfl
    | pstr s => rfl
    | plist xs => rfl
    | ptup xs => rfl
    | pset xs => rfl
  · intro kvs items simv hitems hsim hrat hcount
    have hreq : (kvHas kvs ("similarity") && kvHas kvs ("items") && kvHas kvs ("rationale")) = true := by
      simp [kvHas, hsim, hitems]
      exact hrat
    simp only [validateGroup]
    rw [if_pos hreq]
    have hit : kvGet (simCoerceStep kvs) ("items") = some (.plist items) := by
      rw [kvGet_simCoerceStep_ne _ _ (by decide), hitems]
    simp only [hit]
    have hnot : ¬ ((coerceItems items).length < 2) := by omega
    rw [if_neg hnot]
    refine ⟨_, rfl, ?_, ?_, ?_, ?_⟩
    · rw [kvGet_rootDefaultStep_ne _ _ (by decide),
          kvGet_confDefaultStep_ne _ _ (by decide), kvGet_kvSet_self]
    · rw [kvGet_rootDefaultStep_ne _ _ (by decide),
          kvGet_confDefaultStep_ne _ _ (by decide),
          kvGet_kvSet_ne _ _ _ _ (by decide),
          kvGet_simCoerceStep_sim _ _ hsim]
    · rw [kvGet_rootDefaultStep_ne _ _ (by decide), kvGet_confDefaultStep_conf,
          kvGet_kvSet_ne _ _ _ _ (by decide),
          kvGet_kvSet_ne _ _ _ _ (by decide),
          kvGet_simCoerceStep_ne _ _ (by decide),
          kvGet_simCoerceStep_sim _ _ hsim]
      obtain ⟨s, hs⟩ := coerceSimilarityVal_is_str simv
      rw [hs]
      rfl
    · rw [kvGet_rootDefaultStep_root,
          kvGet_confDefaultStep_ne _ _ (by decide),
          kvGet_kvSet_ne _ _ _ _ (by decide),
          kvGet_simCoerceStep_ne _ _ (by decide)]

/-- Witness for C4: a one-item group is dropped; a two-item group without
`confidence` and `root_analysis` is retained with confidence 0.8 (its
similarity tier is `high`) and the placeholder root analysis (end-to-end
scenario C of the specification). -/
theorem c4_cognate_group_validator_witness :
    validateGroup (.pdict [("similarity", .pstr ("high")),
      ("items", .plist [.pdict [("lang", .pstr ("tr")), ("original", .pstr ("şehir"))]]),
      ("rationale", .pstr ("r"))]) = none ∧
    validatedField (validateGroup (.pdict [("similarity", .pstr ("high")),
      ("items", .plist [.pdict [("lang", .pstr ("tr")), ("original", .pstr ("şehir"))],
                        .pdict [("lang", .pstr ("uz")), ("original", .pstr ("şahar"))]]),
      ("rationale", .pstr ("r"))])) ("confidence") = some (.pnum (4/5)) ∧
    validatedField (validateGroup (.pdict [("similarity", .pstr ("high")),
      ("items", .plist [.pdict [("lang", .pstr ("tr")), ("original", .pstr ("şehir"))],
                        .pdict [("lang", .pstr ("uz")), ("original", .pstr ("şahar"))]]),
      ("rationale", .pstr ("r"))])) ("root_analysis") =
      some (.pstr ("Root analysis not provided")) := by
  refine ⟨c4_cognate_group_validator.1 _ (by decide), ?_, ?_⟩ <;>
  · obtain ⟨gkv, hval, hi, hsimi, hconf, hroot⟩ :=
      c4_cognate_group_validator.2.1
        [("similarity", .pstr ("high")),
         ("items", .plist [.pdict [("lang", .pstr ("tr")), ("original", .pstr ("şehir"))],
                           .pdict [("lang", .pstr ("uz")), ("original", .pstr ("şahar"))]]),
         ("rationale", .pstr ("r"))]
        [.pdict [("lang", .pstr ("tr")), ("original", .pstr ("şehir"))],
         .pdict [("lang", .pstr ("uz")), ("original", .pstr ("şahar"))]]
        (.pstr ("high")) (by rfl) (by rfl) (by rfl) (by decide)
    rw [hval]
    simp only [validatedField]
    first
      | (rw [hconf]; rfl)
      | (rw [hroot]; rfl)

theorem goFoldE_seen {α : Type} (seenOf : α → List PyVal)
    (step : α → PyVal → Except PyErr α)
    (hstep : ∀ a r a', step a r = .ok a' → seenOf a' = seenOf a ++ [r]) :
    ∀ (l : List PyVal) (a a'), goFoldE step l a = .ok a' → seenOf a' = seenOf a ++ l := by
  intro l
  induction l with
  | nil =>
    intro a a' h
    simp only [goFoldE, Except.ok.injEq] at h
    subst h
    simp
  | cons r rest ih =>
    intro a a' h
    simp only [goFoldE] at h
    cases hs : step a r with
    | error e => rw [hs] at h; exact Except.noConfusion h
    | ok a2 =>
      rw [hs] at h
      have h2 := ih a2 a' h
      rw [h2, hstep a r a2 hs]
      simp

theorem riskStatsStep_seen (a : RiskAcc) (r : PyVal) (a' : RiskAcc)
    (h : riskStatsStep a r = .ok a') : a'.seen = a.seen ++ [r] := by
  cases r with
  | pdict kvs =>
    simp only [riskStatsStep] at h
    split at h
    · exact Except.noConfusion h
    · split at h
      · exact Except.noConfusion h
      · split at h
        · exact Except.noConfusion h
        · split at h
          · exact Except.noConfusion h
          · split at h
            · exact Except.noConfusion h
            · injection h with h2
              subst h2
              rfl
  | pnone => exact Except.noConfusion h
  | pbool b => exact Except.noConfusion h
  | pnum q => exact Except.noConfusion h
  | pstr s => exact Except.noConfusion h
  | plist xs => exact Except.noConfusion h
  | ptup xs => exact Except.noConfusion h
  | pset xs => exact Except.noConfusion h

theorem alignStatsStep_seen (a : AlignAcc) (g : PyVal) (a' : AlignAcc)
    (h : alignStatsStep a g = .ok a') : a'.seen = a.seen ++ [g] := by
  cases g with
  | pdict kvs =>
    simp only [alignStatsStep] at h
    split at h
    · exact Except.noConfusion h
    · split at h
      · exact Except.noConfusion h
      · split at h
        · exact Except.noConfusion h
        · split at h
          · exact Except.noConfusion h
          · split at h
            · exact Except.noConfusion h
            · injection h with h2
              subst h2
              rfl
  | pnone => exact Except.noConfusion h
  | pbool b => exact Except.noConfusion h
  | pnum q => exact Except.noConfusion h
  | pstr s => exact Except.noConfusion h
  | plist xs => exact Except.noConfusion h
  | ptup xs => exact Except.noConfusion h
  | pset xs => exact Except.noConfusion h

/-- Claim C9: the two statistics aggregators perform no assignment to their
input collection, which each aggregator returns exactly as it traversed it,
and invoking an aggregator again on that same collection yields the
identical statistics result. -/
theorem c9_aggregators_pure :
    (∀ (risks : List PyVal) (text : String) (s : PyVal) (r : List PyVal),
      calcRiskStatistics risks text = .ok (s, r) →
      r = risks ∧ calcRiskStatistics r text = .ok (s, r)) ∧
    (∀ (groups cands : List PyVal) (s : PyVal) (r : List PyVal),
      calcAlignmentStatistics groups cands = .ok (s, r) →
      r = groups ∧ calcAlignmentStatistics r cands = .ok (s, r)) := by
  constructor
  · intro risks text s r h
    have hr : r = risks := by
      by_cases hemp : risks.isEmpty = true
      · unfold calcRiskStatistics at h
        rw [if_pos hemp] at h
        simp only [Except.ok.injEq, Prod.mk.injEq] at h
        exact h.2.symm
      · unfold calcRiskStatistics at h
        rw [if_neg hemp] at h
        cases hgo : goFoldE riskStatsStep risks riskAccInit with
        | error e => rw [hgo] at h; exact Except.noConfusion h
        | ok acc =>
          rw [hgo] at h
          have hseen := goFoldE_seen RiskAcc.seen riskStatsStep riskStatsStep_seen
            risks riskAccInit acc hgo
          simp only [riskAccInit, List.nil_append] at hseen
          simp only [Except.ok.injEq, Prod.mk.injEq] at h
          rw [← h.2]
          exact hseen
    subst hr
    exact ⟨rfl, h⟩
  · intro groups cands s r h
    have hr : r = groups := by
      by_cases hemp : groups.isEmpty = true
      · unfold calcAlignmentStatistics at h
        rw [if_pos hemp] at h
        simp only [Except.ok.injEq, Prod.mk.injEq] at h
        exact h.2.symm
      · unfold calcAlignmentStatistics at h
        rw [if_neg hemp] at h
        cases hgo : goFoldE alignStatsStep groups alignAccInit with
        | error e => rw [hgo] at h; exact Except.noConfusion h
        | ok acc =>
          rw [hgo] at h
          have hseen := goFoldE_seen AlignAcc.seen alignStatsStep alignStatsStep_seen
            groups alignAccInit acc hgo
          simp only [alignAccInit, List.nil_append] at hseen
          simp only [Except.ok.injEq, Prod.mk.injEq] at h
          rw [← h.2]
          exact hseen
    subst hr
    exact ⟨rfl, h⟩

set_option maxRecDepth 8000 in
/-- Witness for C9: a concrete one-record risk collection and a concrete
one-group alignment produce the expected statistics, return the input
collection unchanged, and rerunning on the returned collection reproduces
the same result (the stated equalities are the reruns derived through the
theorem). -/
theorem c9_aggregators_pure_witness :
    calcRiskStatistics [.pdict [("letter", .pstr ("x")), ("severity", .pstr ("low")),
        ("confidence", .pnum 1), ("languages", .plist [.pstr ("tr")]),
        ("frequency_in_text", .pnum 2)]] ("t") =
      .ok (.pdict [("total_risks", .pnum 1),
        ("severity_distribution", .pdict [("low", .pnum 1), ("medium", .pnum 0), ("high", .pnum 0)]),
        ("average_confidence", .pnum 1),
        ("most_problematic_letters", .plist [.ptup [.pstr ("x"), .pnum 1]]),
        ("language_coverage", .plist [.pstr ("tr")]),
        ("total_new_letters_in_text", .pnum 2)],
        [.pdict [("letter", .pstr ("x")), ("severity", .pstr ("low")),
          ("confidence", .pnum 1), ("languages", .plist [.pstr ("tr")]),
          ("frequency_in_text", .pnum 2)]]) ∧
    calcAlignmentStatistics [.pdict [("items", .plist [
        .pdict [("lang", .pstr ("tr")), ("original", .pstr ("su"))],
        .pdict [("lang", .pstr ("az")), ("original", .pstr ("su"))]]),
        ("similarity", .pstr ("high")), ("confidence", .pnum 1)]]
      [.pstr ("w1"), .pstr ("w2")] =
      .ok (.pdict [("total_input_words", .pnum 2),
        ("total_aligned_words", .pnum 2),
        ("groups_found", .pnum 1),
        ("average_group_size", .pnum 2),
        ("similarity_distribution", .pdict [("high", .pnum 1), ("medium", .pnum 0), ("low", .pnum 0)]),
        ("language_coverage", .plist [.pstr ("tr"), .pstr ("az")]),
        ("average_confidence", .pnum 1),
        ("alignment_rate", .pnum 1)],
        [.pdict [("items", .plist [
          .pdict [("lang", .pstr ("tr")), ("original", .pstr ("su"))],
          .pdict [("lang", .pstr ("az")), ("original", .pstr ("su"))]]),
          ("similarity", .pstr ("high")), ("confidence", .pnum 1)]]) := by
  have h1 : calcRiskStatistics [.pdict [("letter", .pstr ("x")), ("severity", .pstr ("low")),
      ("confidence", .pnum 1), ("languages", .plist [.pstr ("tr")]),
      ("frequency_in_text", .pnum 2)]] ("t") =
      .ok (.pdict [("total_risks", .pnum 1),
        ("severity_distribution", .pdict [("low", .pnum 1), ("medium", .pnum 0), ("high", .pnum 0)]),
        ("average_confidence", .pnum 1),
        ("most_problematic_letters", .plist [.ptup [.pstr ("x"), .pnum 1]]),
        ("language_coverage", .plist [.pstr ("tr")]),
        ("total_new_letters_in_text", .pnum 2)],
        [.pdict [("letter", .pstr ("x")), ("severity", .pstr ("low")),
          ("confidence", .pnum 1), ("languages", .plist [.pstr ("tr")]),
          ("frequency_in_text", .pnum 2)]]) := by
    with_unfolding_all rfl
  have h2 : calcAlignmentStatistics [.pdict [("items", .plist [
      .pdict [("lang", .pstr ("tr")), ("original", .pstr ("su"))],
      .pdict [("lang", .pstr ("az")), ("original", .pstr ("su"))]]),
      ("similarity", .pstr ("high")), ("confidence", .pnum 1)]]
      [.pstr ("w1"), .pstr ("w2")] =
      .ok (.pdict [("total_input_words", .pnum 2),
        ("total_aligned_words", .pnum 2),
        ("groups_found", .pnum 1),
        ("average_group_size", .pnum 2),
        ("similarity_distribution", .pdict [("high", .pnum 1), ("medium", .pnum 0), ("low", .pnum 0)]),
        ("language_coverage", .plist [.pstr ("tr"), .pstr ("az")]),
        ("average_confidence", .pnum 1),
        ("alignment_rate", .pnum 1)],
        [.pdict [("items", .plist [
          .pdict [("lang", .pstr ("tr")), ("original", .pstr ("su"))],
          .pdict [("lang", .pstr ("az")), ("original", .pstr ("su"))]]),
          ("similarity", .pstr ("high")), ("confidence", .pnum 1)]]) := by
    with_unfolding_all rfl
  exact ⟨(c9_aggregators_pure.1 _ _ _ _ h1).2, (c9_aggregators_pure.2 _ _ _ _ h2).2⟩

/-- Claim C2 counterexample: the raw string `42` contains no valid
structured document (no substring parses as a JSON object or array), yet
`parse_json_response` returns the bare number 42 — the final fallback
`json.loads(content)` accepts any JSON value — instead of failing with the
extraction error the claim requires. -/
theorem c2_counterexample :
    hasStructuredDoc ("42") = false ∧ parseJsonResponse ("42") = .ok (.pnum 42) := by
  exact ⟨by rfl, by with_unfolding_all rfl⟩

/-- Claim C2 (amended): whenever `parse_json_response` fails, the raised
error does carry the original raw response text for diagnostics; but a raw
string with no structured document need not fail, since the final direct
parse accepts scalar JSON values (see the counterexample). -/
theorem c2_extraction_error_carries_raw (raw : String) (f : JsonFailure)
    (h : parseJsonResponse raw = .error f) : f.raw = raw := by
  unfold parseJsonResponse at h
  split at h
  · exact Except.noConfusion h
  · split at h
    · exact Except.noConfusion h
    · split at h
      · exact Except.noConfusion h
      · injection h with h2
        rw [← h2]

/-- Witness for the amended C2 at a concrete unparseable string. -/
theorem c2_extraction_error_carries_raw_witness :
    parseJsonResponse ("plain prose") =
      .error ⟨"Expecting value", "plain prose"⟩ ∧
    (⟨"Expecting value", "plain prose"⟩ : JsonFailure).raw = "plain prose" := by
  have h : parseJsonResponse ("plain prose") =
      .error ⟨"Expecting value", "plain prose"⟩ := by with_unfolding_all rfl
  exact ⟨h, c2_extraction_error_carries_raw _ _ h⟩

/-- Claim C1 counterexample: the raw string `prose [[1], [2]] end`
contains the syntactically valid JSON array `[[1], [2]]` as a substring,
yet `parse_json_response` fails on it: the direct parses do not apply, the
non-greedy span `\[.*?\]` captures the unbalanced `[[1]`, and neither
exception-handler pattern matches a nested array. -/
theorem c1_counterexample :
    pyContains ("prose [[1], [2]] end") ("[[1], [2]]") = true ∧
    pyJsonLoads ("[[1], [2]]") = .ok (.plist [.plist [.pnum 1], .plist [.pnum 2]]) ∧
    isOkE (parseJsonResponse ("prose [[1], [2]] end")) = false := by
  refine ⟨by rfl, by with_unfolding_all rfl, by with_unfolding_all rfl⟩

theorem lineScanGo_single (s : String) (hidem : pyStrip s = s) :
    lineScanGo [s] false [] =
      if pyStartsWith s ("\x7b") = true then [s] else [] := by
  by_cases hb : pyStartsWith s ("\x7b") = true
  · simp [lineScanGo, hidem, hb]
  · have hb2 : pyStartsWith s ("\x7b") = false := by simpa using hb
    simp [lineScanGo, hidem, hb2]

/-- Claim C1 (amended): the extractor recovers a document from a raw
response whose trimmed content is a single line that is exactly a valid
JSON array (beginning with a bracket and ending with one) or object
(beginning and ending with braces), provided the content contains no
code-fence or OUTPUT markers; surrounding whitespace in the raw text is
tolerated. Surrounding prose or multi-line documents are not covered (see
the counterexample). -/
theorem c1_single_line_document_recovered (raw s : String) (v : PyVal)
    (hstrip : pyStrip raw = s)
    (hidem : pyStrip s = s)
    (hline : pySplit s ("\n") = [s])
    (hnof : pyContains s ("```json") = false)
    (hnot : pyStartsWith s ("```") = false)
    (hno1 : pyContains s ("OUTPUT:") = false)
    (hno2 : pyContains s ("OUTPUT_TEXT:") = false)
    (hdoc : (pyStartsWith s ("[") = true ∧ pyEndsWith s ("]") = true) ∨
            (pyStartsWith s ("[") = false ∧ pyStartsWith s ("\x7b") = true ∧
             pyEndsWith s ("\x7d") = true))
    (hload : pyJsonLoads s = .ok v) :
    parseJsonResponse raw = .ok v := by
  have hw : stripWrappers s = s := by
    simp [stripWrappers, hnof, hnot, hno1, hno2]
  have hcontent : parseMainFlow raw = pyJsonLoads s := by
    unfold parseMainFlow lineScan
    rw [hstrip]
    simp only [hw, hline, lineScanGo_single s hidem]
    by_cases hb : pyStartsWith s ("\x7b") = true
    · rcases hdoc with ⟨ha1, ha2⟩ | ⟨hb0, hb1, hb2⟩
      · simp [hb, hidem, ha1, ha2, pyJoin]
      · simp [hb, hidem, hb0, hb1, hb2, pyJoin]
    · have hbf : pyStartsWith s ("\x7b") = false := by simpa using hb
      rcases hdoc with ⟨ha1, ha2⟩ | ⟨hb0, hb1, hb2⟩
      · simp [hbf, hidem, ha1, ha2]
      · exact absurd hb1 hb
  unfold parseJsonResponse
  rw [hcontent, hload]

/-- Witness for the amended C1: a brace-delimited single-line object with
surrounding whitespace is recovered. -/
theorem c1_single_line_document_recovered_witness :
    parseJsonResponse ("  \x7b\"ok\": true\x7d  ") = .ok (.pdict [("ok", .pbool true)]) :=
  c1_single_line_document_recovered _ ("\x7b\"ok\": true\x7d") _
    (by rfl) (by rfl) (by with_unfolding_all rfl) (by rfl) (by rfl) (by rfl) (by rfl)
    (Or.inr ⟨by rfl, by rfl, by rfl⟩) (by rfl)

/-- Claim C6 counterexample: on the three-line object `{"a": {` /
`"b": 1}` / `}` the implemented scan stops after the second line — it
compares the `{`/`}` counts of that single line (0 against 1) — and
returns an unbalanced two-line buffer, whereas the scan described by the
claim, with the cumulative count over the accumulated buffer (2 against
1 at that point), would continue to the third line. -/
theorem c6_counterexample :
    lineScan ("\x7b\"a\": \x7b\n\"b\": 1\x7d\n\x7d") =
      ["\x7b\"a\": \x7b", "\"b\": 1\x7d"] ∧
    lineScanSpecCum ("\x7b\"a\": \x7b\n\"b\": 1\x7d\n\x7d") =
      ["\x7b\"a\": \x7b", "\"b\": 1\x7d", "\x7d"] ∧
    lineScan ("\x7b\"a\": \x7b\n\"b\": 1\x7d\n\x7d") ≠
      lineScanSpecCum ("\x7b\"a\": \x7b\n\"b\": 1\x7d\n\x7d") := by
  refine ⟨by with_unfolding_all rfl, by with_unfolding_all rfl, ?_⟩
  intro h
  rw [(by with_unfolding_all rfl :
        lineScan ("\x7b\"a\": \x7b\n\"b\": 1\x7d\n\x7d") =
          ["\x7b\"a\": \x7b", "\"b\": 1\x7d"]),
      (by with_unfolding_all rfl :
        lineScanSpecCum ("\x7b\"a\": \x7b\n\"b\": 1\x7d\n\x7d") =
          ["\x7b\"a\": \x7b", "\"b\": 1\x7d", "\x7d"])] at h
  simp at h

theorem lineScanGo_started (ls : List String) (acc : List String) :
    lineScanGo ls true acc =
      acc ++ (match (ls.map pyStrip).findIdx? lineStopCond with
              | none => ls.map pyStrip
              | some j => (ls.map pyStrip).take (j + 1)) := by
  induction ls generalizing acc with
  | nil => simp [lineScanGo]
  | cons l rest ih =>
    by_cases hstop : lineStopCond (pyStrip l) = true
    · simp [lineScanGo, hstop, List.findIdx?_cons]
    · have hstop2 : lineStopCond (pyStrip l) = false := by simpa using hstop
      simp only [lineScanGo, Bool.true_or, if_true, hstop2, Bool.false_eq_true, if_false,
        List.map_cons, List.findIdx?_cons, Option.map_eq_map]
      rw [ih]
      cases hj : (rest.map pyStrip).findIdx? lineStopCond with
      | none => simp [hj]
      | some j => simp [hj, List.append_assoc]

theorem lineScanGo_unstarted (ls : List String) :
    lineScanGo ls false [] =
      (match (ls.map pyStrip).findIdx? (fun l => pyStartsWith l ("\x7b")) with
       | none => []
       | some i =>
         match ((ls.map pyStrip).drop i).findIdx? lineStopCond with
         | none => (ls.map pyStrip).drop i
         | some j => ((ls.map pyStrip).drop i).take (j + 1)) := by
  induction ls with
  | nil => simp [lineScanGo]
  | cons l rest ih =>
    by_cases hb : pyStartsWith (pyStrip l) ("\x7b") = true
    · by_cases hstop : lineStopCond (pyStrip l) = true
      · simp [lineScanGo, hb, hstop, List.findIdx?_cons]
      · have hstop2 : lineStopCond (pyStrip l) = false := by simpa using hstop
        simp only [lineScanGo, hb, Bool.false_or, if_true, hstop2, Bool.false_eq_true, if_false,
          List.map_cons, List.findIdx?_cons, Option.map_eq_map]
        rw [lineScanGo_started]
        simp only [List.nil_append, List.drop_zero]
        cases hj : (rest.map pyStrip).findIdx? lineStopCond with
        | none => simp [hj, hstop2, List.findIdx?_cons]
        | some j => simp [hj, hstop2, List.findIdx?_cons]
    · have hb2 : pyStartsWith (pyStrip l) ("\x7b") = false := by simpa using hb
      simp only [lineScanGo, hb2, Bool.false_or, Bool.false_eq_true, if_false,
        List.map_cons, List.findIdx?_cons, Option.map_eq_map]
      rw [ih]
      cases hi : (rest.map pyStrip).findIdx? (fun l => pyStartsWith l ("\x7b")) with
      | none => simp [hi]
      | some i => simp [hi]

/-- Claim C6 (amended): the line scan starts at the first stripped line
beginning with a left brace, appends every stripped line from there on,
and stops after the first appended line that ends with a right brace and
whose own left-brace count is at most its own right-brace count — a
per-line balance check, not the cumulative count over the accumulated
buffer stated in the claim (see the counterexample); with no stop line the
scan runs to the end, and with no starting line the buffer is empty. -/
theorem c6_line_scan_per_line (content : String) :
    lineScan content = lineScanSlice content := by
  unfold lineScan lineScanSlice
  rw [lineScanGo_unstarted]

/-- Claim C5 counterexample: `_enrich_pce_result` does not recompute the
improvement percentage from the two scores. With original weighted score
100 and normalized weighted score 119 but a stored
`comparison.weighted_improvement` of 42, the enriched result still
reports 42, not the 19.0 the claim requires. -/
theorem c5_counterexample :
    exceptComparisonWeighted (enrichPceResult
      (.pdict [("original_analysis", .pdict [("weighted_pce", .pnum 100)]),
               ("ota_analysis", .pdict [("weighted_pce", .pnum 119)]),
               ("comparison", .pdict [("weighted_improvement", .pnum 42),
                                      ("logarithmic_improvement", .pnum 5)])])
      ("orig") ("ota") ("ds") ("ts")) = some (.pnum 42) ∧ (42 : ℚ) ≠ 19 :=
  ⟨by with_unfolding_all rfl, by norm_num⟩

/-- Claim C5 (amended): the enrichment step never computes an improvement
percentage from the original and normalized scores: whatever
`comparison` dict the LLM response already contains is passed through
unchanged, and the enrichment only reads its `weighted_improvement` and
`logarithmic_improvement` fields (each defaulting to 0 when absent) to
attach a derived `assessment` block with the category thresholds 15/10,
the effectiveness rating, and the recommendation list. -/
theorem c5_comparison_passthrough
    (kvs cmp : List (String × PyVal)) (ot nt ds ts : String) (w l : ℚ)
    (hcmp : kvGet kvs ("comparison") = some (.pdict cmp))
    (hw : toPyNumber (kvGetD cmp ("weighted_improvement") (.pnum 0)) = .ok w)
    (hl : toPyNumber (kvGetD cmp ("logarithmic_improvement") (.pnum 0)) = .ok l) :
    ∃ fin, enrichPceResult (.pdict kvs) ot nt ds ts = .ok (.pdict fin) ∧
      kvGet fin ("comparison") = some (.pdict cmp) ∧
      kvGet fin ("assessment") = some (.pdict [
        ("improvement_category", .pstr (if w > 15 then "Yüksek İyileştirme"
          else if w > 10 then "Orta İyileştirme" else "Düşük İyileştirme")),
        ("effectiveness_rating", .pstr (ratePceEffectiveness w)),
        ("recommendations", .plist (pceRecommendationsList w l))]) := by
  have hget : kvGet (kvSet kvs ("metadata") (.pdict [
      ("dataset_name", .pstr ds),
      ("original_length", .pnum ot.length),
      ("ota_length", .pnum nt.length),
      ("analysis_timestamp", .pstr ts),
      ("new_letters_detected", detectNewLettersPce nt)])) ("comparison")
      = some (.pdict cmp) := by
    rw [kvGet_kvSet_ne _ ("metadata") ("comparison") _ (by decide)]
    exact hcmp
  have hrun : enrichPceResult (.pdict kvs) ot nt ds ts = .ok (.pdict
      (kvSet (kvSet kvs ("metadata") (.pdict [
        ("dataset_name", .pstr ds),
        ("original_length", .pnum ot.length),
        ("ota_length", .pnum nt.length),
        ("analysis_timestamp", .pstr ts),
        ("new_letters_detected", detectNewLettersPce nt)]))
       ("assessment") (.pdict [
        ("improvement_category", .pstr (if w > 15 then "Yüksek İyileştirme"
          else if w > 10 then "Orta İyileştirme" else "Düşük İyileştirme")),
        ("effectiveness_rating", .pstr (ratePceEffectiveness w)),
        ("recommendations", .plist (pceRecommendationsList w l))]))) := by
    simp only [enrichPceResult, kvHas, pceRecommendations]
    simp only [hget, hw, hl, Option.isSome_some, if_true]
  refine ⟨_, hrun, ?_, ?_⟩
  · rw [kvGet_kvSet_ne _ ("assessment") ("comparison") _ (by decide)]
    exact hget
  · exact kvGet_kvSet_self _ _ _

/-- Claim C5 witness: a record whose stored weighted improvement is 12
passes through unchanged and receives the `Orta İyileştirme` category. -/
theorem c5_comparison_passthrough_witness :
    exceptComparisonWeighted (enrichPceResult
      (.pdict [("x", .pbool true),
               ("comparison", .pdict [("weighted_improvement", .pnum 12)])])
      ("o") ("n") ("d") ("t")) = some (.pnum 12) := by
  obtain ⟨fin, hrun, hcmp2, hass⟩ := c5_comparison_passthrough
    [("x", .pbool true), ("comparison", .pdict [("weighted_improvement", .pnum 12)])]
    [("weighted_improvement", .pnum 12)] ("o") ("n") ("d") ("t") 12 0
    (by with_unfolding_all rfl) (by with_unfolding_all rfl) (by with_unfolding_all rfl)
  simp only [exceptComparisonWeighted, hrun, kvGet2, hcmp2]
  with_unfolding_all rfl

/-- Claim C10 counterexample: invalid characters in `output_text` can turn
the result into a failure. When the parsed response carries a non-list
`notes` value (here the number 3), appending the warning raises
`AttributeError` inside the `try` block, and the `except` clause returns
the failure dict: `ok` ends up `False`, not the `True` the claim
requires. -/
theorem c10_counterexample :
    pvField (transliterate
      (fun _ _ _ _ => .ok (.pdict [("content",
        .pstr ("\x7b\"ok\": true, \"output_text\": \"ab€\", \"notes\": 3\x7d"))]))
      ("girdi") ("Turkish")) ("ok") = some (.pbool false) ∧
    some (PyVal.pbool false) ≠ some (PyVal.pbool true) :=
  ⟨by with_unfolding_all rfl, by simp⟩

/-- Claim C10 (amended): when the parsed response has truthy `ok`, a
non-empty string `output_text` containing invalid characters, and a
list-valued `notes` field (including the default empty list when `notes`
is absent), the result is not a failure: `ok` is passed through and stays
truthy, and the warning listing the distinct invalid characters in
first-occurrence order is appended to `notes`. A non-list `notes` value
instead raises and produces the failure dict (see the counterexample). -/
theorem c10_invalid_chars_warning
    (llm : LLMFun) (text lang : String)
    (rsp rkv : List (String × PyVal)) (content out : String) (ns : List PyVal)
    (hne : ¬ pyStrip text = "")
    (hllm : llm translitSystemPrompt (translitUserPrompt text lang) (1/10) 2000
      = .ok (.pdict rsp))
    (hcontent : kvGet rsp ("content") = some (.pstr content))
    (hparse : parseJsonResponse content = .ok (.pdict rkv))
    (hok : pyTruthy (kvGetD rkv ("ok") .pnone) = true)
    (hout : kvGet rkv ("output_text") = some (.pstr out))
    (houtne : out ≠ "")
    (hinv : (validateOtaCharacters out).1 = false)
    (hnotes : kvGetD rkv ("notes") (.plist []) = .plist ns) :
    ∃ fin, transliterate llm text lang = .pdict fin ∧
      kvGet fin ("ok") = kvGet rkv ("ok") ∧
      pyTruthy (kvGetD fin ("ok") .pnone) = true ∧
      kvGet fin ("notes")
        = some (.plist (ns ++ [.pstr (invalidCharsWarning (validateOtaCharacters out).2)])) := by
  have houtD : kvGetD rkv ("output_text") .pnone = .pstr out := by
    simp [kvGetD, hout]
  have houtT : pyTruthy (.pstr out) = true := by
    simp [pyTruthy, houtne]
  have hcore : transliterateCore llm text lang = .ok (.pdict
      (kvSet (kvSet (kvSet rkv ("notes")
        (.plist (ns ++ [.pstr (invalidCharsWarning (validateOtaCharacters out).2)])))
       ("statistics") (.pdict [
        ("input_length", .pnum text.length),
        ("output_length", .pnum out.length),
        ("source_language", .pstr lang),
        ("new_letters_used", countNewLettersT out)]))
       ("llm_metadata") (.pdict [
        ("model", kvGetD rsp ("model") .pnone),
        ("usage", kvGetD rsp ("usage") .pnone),
        ("response_time", kvGetD rsp ("response_time") .pnone)]))) := by
    unfold transliterateCore
    simp only [hllm, hcontent, hparse, houtD, hok, houtT, Bool.and_self,
      eq_self_iff_true, if_true, hinv, Bool.false_eq_true, if_false, hnotes]
  have hmain : transliterate llm text lang = .pdict
      (kvSet (kvSet (kvSet rkv ("notes")
        (.plist (ns ++ [.pstr (invalidCharsWarning (validateOtaCharacters out).2)])))
       ("statistics") (.pdict [
        ("input_length", .pnum text.length),
        ("output_length", .pnum out.length),
        ("source_language", .pstr lang),
        ("new_letters_used", countNewLettersT out)]))
       ("llm_metadata") (.pdict [
        ("model", kvGetD rsp ("model") .pnone),
        ("usage", kvGetD rsp ("usage") .pnone),
        ("response_time", kvGetD rsp ("response_time") .pnone)])) := by
    unfold transliterate
    rw [if_neg hne, hcore]
  refine ⟨_, hmain, ?_, ?_, ?_⟩
  · rw [kvGet_kvSet_ne _ ("llm_metadata") ("ok") _ (by decide),
        kvGet_kvSet_ne _ ("statistics") ("ok") _ (by decide),
        kvGet_kvSet_ne _ ("notes") ("ok") _ (by decide)]
  · simp only [kvGetD]
    rw [kvGet_kvSet_ne _ ("llm_metadata") ("ok") _ (by decide),
        kvGet_kvSet_ne _ ("statistics") ("ok") _ (by decide),
        kvGet_kvSet_ne _ ("notes") ("ok") _ (by decide)]
    simpa [kvGetD] using hok
  · rw [kvGet_kvSet_ne _ ("llm_metadata") ("notes") _ (by decide),
        kvGet_kvSet_ne _ ("statistics") ("notes") _ (by decide),
        kvGet_kvSet_self]

/-- Claim C10 witness: a response with `ok` true, output text `ab€` and a
one-note list gets the warning about `€` appended while `ok` stays true. -/
theorem c10_invalid_chars_warning_witness :
    pvField (transliterate
      (fun _ _ _ _ => .ok (.pdict [("content",
        .pstr ("\x7b\"ok\": true, \"output_text\": \"ab€\", \"notes\": [\"n1\"]\x7d"))]))
      ("girdi") ("Turkish")) ("notes")
    = some (.plist [.pstr ("n1"),
        .pstr ("Warning: Invalid characters detected: €")]) := by
  obtain ⟨fin, hmain, hokeq, htru, hnotes2⟩ := c10_invalid_chars_warning
    (fun _ _ _ _ => .ok (.pdict [("content",
      .pstr ("\x7b\"ok\": true, \"output_text\": \"ab€\", \"notes\": [\"n1\"]\x7d"))]))
    ("girdi") ("Turkish")
    [("content", .pstr ("\x7b\"ok\": true, \"output_text\": \"ab€\", \"notes\": [\"n1\"]\x7d"))]
    [("ok", .pbool true), ("output_text", .pstr ("ab€")), ("notes", .plist [.pstr ("n1")])]
    ("\x7b\"ok\": true, \"output_text\": \"ab€\", \"notes\": [\"n1\"]\x7d")
    ("ab€") [.pstr ("n1")]
    (by decide) (by rfl) (by rfl) (by with_unfolding_all rfl) (by rfl) (by rfl)
    (by decide) (by with_unfolding_all rfl) (by rfl)
  simp only [pvField, hmain]
  rw [hnotes2]
  with_unfolding_all rfl

end CTA
